import Mathlib

/-!
Orchestrator: catalog store, topology inspector and replication operations.

A shallow embedding of `inst/instance_dao.go`, `inst/audit_dao.go`, `config/config.go` and
the handlers of `http/api.go`.

* The backend table `database_instance` is a list of `Row`s keyed by
  `(hostname, port)`; timestamps are seconds (`Nat`), `NOW()` is a parameter.
* SQL conditions are evaluated in three-valued logic (`Option Bool`, `none` = NULL).
* Go `uint` is a natural number below `2 ^ 64`; arithmetic on it wraps.
* The live database is an oracle: every query of a probe has a scripted outcome,
  and the replication operations run against a script of probe and command results.
* Go `int` arithmetic wraps into `[-2^63, 2^63)`.
* The handlers take what the key parser and the core operation return as arguments.
-/

namespace Orchestrator

/-- Go `error` values are represented by their text. -/
abbrev Error := String

/-- Width of the Go `uint` type on the 64-bit targets. -/
def uintSize : Nat := 2 ^ 64

/-! ## Data model -/

/-- The type `InstanceKey`: hostname and port of a database server. -/
structure InstanceKey where
  Hostname : String
  Port : Nat
deriving DecidableEq, Repr, Inhabited

/-- The type `BinlogCoordinates`: binary log file and position. -/
structure BinlogCoordinates where
  LogFile : String
  LogPos : Int
deriving DecidableEq, Repr, Inhabited

/-- The type `Instance`, with the fields that `instance_dao.go` reads and writes. -/
structure Instance where
  Key : InstanceKey
  ServerID : Nat
  Version : String
  Binlog_format : String
  LogBinEnabled : Bool
  LogSlaveUpdatesEnabled : Bool
  SelfBinlogCoordinates : BinlogCoordinates
  MasterKey : InstanceKey
  Slave_SQL_Running : Bool
  Slave_IO_Running : Bool
  ReadBinlogCoordinates : BinlogCoordinates
  ExecBinlogCoordinates : BinlogCoordinates
  SecondsBehindMaster : Option Int
  SlaveLagSeconds : Option Int
  SlaveHosts : List InstanceKey
  ClusterName : String
  IsUpToDate : Bool
  IsRecentlyChecked : Bool
  IsLastCheckValid : Bool
  SecondsSinceLastSeen : Option Int
deriving DecidableEq, Repr, Inhabited

/-- Modelled from the spec: `NewInstance` (instance.go is not among the sources) returns a
record whose fields are all zero values and whose replica set is empty. -/
def NewInstance : Instance :=
  { Key := ⟨"", 0⟩, ServerID := 0, Version := "", Binlog_format := "",
    LogBinEnabled := false, LogSlaveUpdatesEnabled := false,
    SelfBinlogCoordinates := ⟨"", 0⟩, MasterKey := ⟨"", 0⟩,
    Slave_SQL_Running := false, Slave_IO_Running := false,
    ReadBinlogCoordinates := ⟨"", 0⟩, ExecBinlogCoordinates := ⟨"", 0⟩,
    SecondsBehindMaster := none, SlaveLagSeconds := none, SlaveHosts := [],
    ClusterName := "", IsUpToDate := false, IsRecentlyChecked := false,
    IsLastCheckValid := false, SecondsSinceLastSeen := none }

/-- Modelled from the spec: `BinlogCoordinates.Equals` (binlog_coordinates.go is not among the
sources): identical file and position. -/
def BinlogCoordinates.Equals (a b : BinlogCoordinates) : Bool :=
  decide (a.LogFile = b.LogFile) && decide (a.LogPos = b.LogPos)

/-- Modelled from the spec: `BinlogCoordinates.SmallerThan` (binlog_coordinates.go is not among
the sources): first lexicographically by file, then numerically by position. The file names
are compared as character lists, which is the order of `String`. -/
def BinlogCoordinates.SmallerThan (a b : BinlogCoordinates) : Bool :=
  decide (a.LogFile.data < b.LogFile.data) ||
    (decide (a.LogFile = b.LogFile) && decide (a.LogPos < b.LogPos))

/-- Modelled from the spec: `Instance.IsSlave` (instance.go is not among the sources): an
instance is a replica iff its master key is not the zero value. -/
def Instance.IsSlave (i : Instance) : Bool :=
  !(decide (i.MasterKey.Hostname = "") && decide (i.MasterKey.Port = 0))

/-- Modelled from the spec: `Instance.SQLThreadUpToDate` (instance.go is not among the
sources): the SQL thread has caught up with the IO thread, `ExecCoords == ReadCoords`. -/
def Instance.SQLThreadUpToDate (i : Instance) : Bool :=
  i.ReadBinlogCoordinates.Equals i.ExecBinlogCoordinates

/-- Modelled from the spec: `Instance.SlaveRunning` (instance.go is not among the sources):
both replication threads run. -/
def Instance.SlaveRunning (i : Instance) : Bool :=
  i.Slave_SQL_Running && i.Slave_IO_Running

/-- Modelled from the spec: `Instance.AddSlaveKey` (instance.go is not among the sources):
the replica set is a set, adding a key twice keeps one copy. -/
def Instance.AddSlaveKey (i : Instance) (k : InstanceKey) : Instance :=
  if k ∈ i.SlaveHosts then i else { i with SlaveHosts := i.SlaveHosts ++ [k] }

/-- The canonical text of a key, `fmt.Sprintf("%s:%d", hostname, port)`. -/
def InstanceKey.display (k : InstanceKey) : String :=
  k.Hostname ++ ":" ++ toString k.Port

/-- The text of a key value under the verb `%+v`, the field names followed by the values
between braces; a pointer to a key is rendered with a leading `&`. -/
def InstanceKey.plusV (k : InstanceKey) : String :=
  "\x7bHostname:" ++ k.Hostname ++ " Port:" ++ toString k.Port ++ "\x7d"

/-! ## Configuration (config/config.go) -/

/-- The type `Configuration`; `uint` fields are naturals, `int` fields integers. -/
structure Configuration where
  MySQLTopologyUser : String
  MySQLTopologyPassword : String
  MySQLOrchestratorHost : String
  MySQLOrchestratorPort : Nat
  MySQLOrchestratorDatabase : String
  MySQLOrchestratorUser : String
  MySQLOrchestratorPassword : String
  SlaveLagQuery : String
  SlaveStartPostWaitMilliseconds : Int
  DiscoverByShowSlaveHosts : Bool
  InstancePollSeconds : Nat
  UnseenInstanceForgetHours : Nat
  DiscoveryPollSeconds : Int
  ReasonableReplicationLagSeconds : Int
  ReasonableMaintenanceReplicationLagSeconds : Int
  AuditPageSize : Int
  HTTPAuthUser : String
  HTTPAuthPassword : String
deriving DecidableEq, Repr, Inhabited

/-- The function `NewConfiguration`: fields that the literal does not name are zero values. -/
def NewConfiguration : Configuration :=
  { MySQLTopologyUser := "", MySQLTopologyPassword := "", MySQLOrchestratorHost := "",
    MySQLOrchestratorPort := 0, MySQLOrchestratorDatabase := "",
    MySQLOrchestratorUser := "", MySQLOrchestratorPassword := "",
    SlaveLagQuery := "",
    SlaveStartPostWaitMilliseconds := 1000,
    DiscoverByShowSlaveHosts := false,
    InstancePollSeconds := 60,
    UnseenInstanceForgetHours := 240,
    DiscoveryPollSeconds := 5,
    ReasonableReplicationLagSeconds := 10,
    ReasonableMaintenanceReplicationLagSeconds := 20,
    AuditPageSize := 20,
    HTTPAuthUser := "",
    HTTPAuthPassword := "" }

/-! ## The backend table `database_instance` -/

/-- One row of `database_instance`, with the columns that the statements of
`instance_dao.go` name. `last_seen` and the two lag columns are nullable. -/
structure Row where
  hostname : String
  port : Nat
  last_checked : Nat
  last_seen : Option Nat
  server_id : Nat
  version : String
  binlog_format : String
  log_bin : Bool
  log_slave_updates : Bool
  binary_log_file : String
  binary_log_pos : Int
  master_host : String
  master_port : Nat
  slave_sql_running : Bool
  slave_io_running : Bool
  master_log_file : String
  read_master_log_pos : Int
  relay_master_log_file : String
  exec_master_log_pos : Int
  seconds_behind_master : Option Int
  slave_lag_seconds : Option Int
  num_slave_hosts : Nat
  slave_hosts : List InstanceKey
  cluster_name : String
deriving DecidableEq, Repr, Inhabited

/-- The primary key `(hostname, port)` of a row. -/
def Row.key (r : Row) : InstanceKey := ⟨r.hostname, r.port⟩

/-- Rows matched by `where hostname = ? and port = ?`. -/
def Row.hasKey (k : InstanceKey) (r : Row) : Bool :=
  decide (r.hostname = k.Hostname) && decide (r.port = k.Port)

/-- The row stored under a key, if any. -/
def findRow (rows : List Row) (k : InstanceKey) : Option Row :=
  rows.find? (Row.hasKey k)

/-- The values that `WriteInstance` binds to its `replace into` statement. The column
`last_seen` is not named by the statement: the new row takes the column default
`lastSeenDefault`, which the table declaration (not among the sources) fixes. -/
def instanceRow (lastSeenDefault : Option Nat) (now : Nat) (i : Instance) : Row :=
  { hostname := i.Key.Hostname, port := i.Key.Port,
    last_checked := now, last_seen := lastSeenDefault,
    server_id := i.ServerID, version := i.Version, binlog_format := i.Binlog_format,
    log_bin := i.LogBinEnabled, log_slave_updates := i.LogSlaveUpdatesEnabled,
    binary_log_file := i.SelfBinlogCoordinates.LogFile,
    binary_log_pos := i.SelfBinlogCoordinates.LogPos,
    master_host := i.MasterKey.Hostname, master_port := i.MasterKey.Port,
    slave_sql_running := i.Slave_SQL_Running, slave_io_running := i.Slave_IO_Running,
    master_log_file := i.ReadBinlogCoordinates.LogFile,
    read_master_log_pos := i.ReadBinlogCoordinates.LogPos,
    relay_master_log_file := i.ExecBinlogCoordinates.LogFile,
    exec_master_log_pos := i.ExecBinlogCoordinates.LogPos,
    seconds_behind_master := i.SecondsBehindMaster,
    slave_lag_seconds := i.SlaveLagSeconds,
    num_slave_hosts := i.SlaveHosts.length, slave_hosts := i.SlaveHosts,
    cluster_name := i.ClusterName }

/-- The statement `replace into database_instance (...) values (...)`: the row with the same
primary key is deleted, then the new row is inserted. -/
def replaceInto (rows : List Row) (r : Row) : List Row :=
  r :: rows.filter (fun x => !(Row.hasKey r.key x))

/-- The statement `update database_instance set last_seen = NOW() where hostname=? and port=?`. -/
def updateLastSeen (rows : List Row) (k : InstanceKey) (now : Nat) : List Row :=
  rows.map (fun x => if Row.hasKey k x then { x with last_seen := some now } else x)

/-- The statement `update database_instance set last_checked = NOW() where hostname = ? and
port = ?`. -/
def updateLastChecked (rows : List Row) (k : InstanceKey) (now : Nat) : List Row :=
  rows.map (fun x => if Row.hasKey k x then { x with last_checked := now } else x)

/-- Outcomes of the backend calls of `WriteInstance`: `db.OpenOrchestrator`, the
`replace into` statement and the `update ... set last_seen` statement. -/
structure WriteFaults where
  openErr : Option Error
  replaceErr : Option Error
  updateErr : Option Error
deriving DecidableEq, Repr, Inhabited

/-- No backend call fails. -/
def WriteFaults.none : WriteFaults := ⟨Option.none, Option.none, Option.none⟩

/-- The function `WriteInstance`: returns the error and the table afterwards. The result of the
second statement is dropped by the code, so its failure leaves the return value `nil`. -/
def WriteInstance (f : WriteFaults) (lastSeenDefault : Option Nat) (now : Nat)
    (rows : List Row) (i : Instance) (lastError : Option Error) : Option Error × List Row :=
  match f.openErr with
  | some e => (some e, rows)
  | Option.none =>
    match f.replaceErr with
    | some e => (some e, rows)
    | Option.none =>
      let rows1 := replaceInto rows (instanceRow lastSeenDefault now i)
      match lastError with
      | Option.none =>
        match f.updateErr with
        | Option.none => (Option.none, updateLastSeen rows1 i.Key now)
        | some _ => (Option.none, rows1)
      | some _ => (Option.none, rows1)

/-- Outcomes of the backend calls of a function that opens the backend and runs one statement. -/
structure ExecFaults where
  openErr : Option Error
  execErr : Option Error
deriving DecidableEq, Repr, Inhabited

/-- No backend call fails. -/
def ExecFaults.none : ExecFaults := ⟨Option.none, Option.none⟩

/-- The function `UpdateInstanceLastChecked`. -/
def UpdateInstanceLastChecked (f : ExecFaults) (now : Nat) (rows : List Row)
    (k : InstanceKey) : Option Error × List Row :=
  match f.openErr with
  | some e => (some e, rows)
  | Option.none =>
    match f.execErr with
    | some e => (some e, rows)
    | Option.none => (Option.none, updateLastChecked rows k now)

/-! ## SQL expressions in three-valued logic -/

/-- SQL `not`. -/
def sqlNot (a : Option Bool) : Option Bool := a.map (fun b => !b)

/-- SQL `or`: true when an operand is true, NULL when none is true and one is NULL. -/
def sqlOr (a b : Option Bool) : Option Bool :=
  match a, b with
  | some true, _ => some true
  | _, some true => some true
  | some false, some false => some false
  | _, _ => none

/-- SQL `<` on nullable integers. -/
def sqlLt (a b : Option Int) : Option Bool :=
  match a, b with
  | some x, some y => some (decide (x < y))
  | _, _ => none

/-- SQL `<=` on nullable integers. -/
def sqlLe (a b : Option Int) : Option Bool :=
  match a, b with
  | some x, some y => some (decide (x ≤ y))
  | _, _ => none

/-- SQL `ifnull(a, d)`. -/
def ifnull (a : Option Bool) (d : Bool) : Bool := a.getD d

/-- SQL `a is true`. -/
def isTrue (a : Option Bool) : Bool := a.getD false

/-- SQL `timestampdiff(second, t, now())` for a stored timestamp `t`. -/
def timestampdiff (t : Nat) (now : Nat) : Int := (now : Int) - (t : Int)

/-! ## Reading the catalog -/

/-- A result row of the `select *, ... as seconds_since_last_checked, ... as
is_last_check_valid, ... as seconds_since_last_seen` statements, as the row callback sees it.
`seconds_since_last_checked` holds what `GetUint` returns; stored timestamps are written with
`NOW()` and are not later than the `NOW()` of a read, so the difference is not negative. -/
structure RowMap where
  row : Row
  seconds_since_last_checked : Nat
  is_last_check_valid : Bool
  seconds_since_last_seen : Option Int
deriving DecidableEq, Repr, Inhabited

/-- The three computed columns of the `select` statements. -/
def selectRow (now : Nat) (r : Row) : RowMap :=
  { row := r,
    seconds_since_last_checked := (timestampdiff r.last_checked now).toNat,
    is_last_check_valid := isTrue (sqlLe (some (r.last_checked : Int)) (r.last_seen.map Int.ofNat)),
    seconds_since_last_seen := r.last_seen.map (fun t => timestampdiff t now) }

/-- The Go expression `config.Config.InstancePollSeconds * 5` on `uint`. -/
def recentlyCheckedThreshold (cfg : Configuration) : Nat :=
  (cfg.InstancePollSeconds * 5) % uintSize

/-- The function `readInstanceRow`. The four assignments from the capitalised `show slave
status` names at its top are overwritten further down by the table columns, which are the
values kept here. -/
def readInstanceRow (cfg : Configuration) (m : RowMap) : Instance :=
  { Key := ⟨m.row.hostname, m.row.port⟩,
    ServerID := m.row.server_id,
    Version := m.row.version,
    Binlog_format := m.row.binlog_format,
    LogBinEnabled := m.row.log_bin,
    LogSlaveUpdatesEnabled := m.row.log_slave_updates,
    SelfBinlogCoordinates := ⟨m.row.binary_log_file, m.row.binary_log_pos⟩,
    MasterKey := ⟨m.row.master_host, m.row.master_port⟩,
    Slave_SQL_Running := m.row.slave_sql_running,
    Slave_IO_Running := m.row.slave_io_running,
    ReadBinlogCoordinates := ⟨m.row.master_log_file, m.row.read_master_log_pos⟩,
    ExecBinlogCoordinates := ⟨m.row.relay_master_log_file, m.row.exec_master_log_pos⟩,
    SecondsBehindMaster := m.row.seconds_behind_master,
    SlaveLagSeconds := m.row.slave_lag_seconds,
    SlaveHosts := m.row.slave_hosts,
    ClusterName := m.row.cluster_name,
    IsUpToDate := decide (m.seconds_since_last_checked ≤ cfg.InstancePollSeconds),
    IsRecentlyChecked := decide (m.seconds_since_last_checked ≤ recentlyCheckedThreshold cfg),
    IsLastCheckValid := m.is_last_check_valid,
    SecondsSinceLastSeen := m.seconds_since_last_seen }

/-- The columns that `ReadInstance` scans before `seconds_since_last_checked`. -/
def scanColumns (k : InstanceKey) (r : Row) : Instance :=
  { NewInstance with
    Key := k,
    ServerID := r.server_id,
    Version := r.version,
    Binlog_format := r.binlog_format,
    LogBinEnabled := r.log_bin,
    LogSlaveUpdatesEnabled := r.log_slave_updates,
    SelfBinlogCoordinates := ⟨r.binary_log_file, r.binary_log_pos⟩,
    MasterKey := ⟨r.master_host, r.master_port⟩,
    Slave_SQL_Running := r.slave_sql_running,
    Slave_IO_Running := r.slave_io_running,
    ReadBinlogCoordinates := ⟨r.master_log_file, r.read_master_log_pos⟩,
    ExecBinlogCoordinates := ⟨r.relay_master_log_file, r.exec_master_log_pos⟩,
    SecondsBehindMaster := r.seconds_behind_master,
    SlaveLagSeconds := r.slave_lag_seconds,
    ClusterName := r.cluster_name }

/-- The function `ReadInstance`: instance, `found`, error. A difference that does not fit the
`uint` destination makes `Scan` fail after the earlier columns were stored. -/
def ReadInstance (f : ExecFaults) (cfg : Configuration) (now : Nat) (rows : List Row)
    (k : InstanceKey) : Instance × Bool × Option Error :=
  match f.openErr with
  | some e => (NewInstance, false, some e)
  | none =>
    match f.execErr with
    | some e => ({ NewInstance with Key := k }, false, some e)
    | none =>
      match findRow rows k with
      | none => ({ NewInstance with Key := k }, false, some "sql: no rows in result set")
      | some r =>
        let secs := timestampdiff r.last_checked now
        if secs < 0 ∨ (uintSize : Int) ≤ secs then
          (scanColumns k r, false, some "sql: Scan error on column seconds_since_last_checked")
        else
          let secondsSinceLastChecked := secs.toNat
          ({ scanColumns k r with
              IsLastCheckValid := (selectRow now r).is_last_check_valid,
              SecondsSinceLastSeen := (selectRow now r).seconds_since_last_seen,
              IsUpToDate := decide (secondsSinceLastChecked ≤ cfg.InstancePollSeconds),
              IsRecentlyChecked := decide (secondsSinceLastChecked ≤ recentlyCheckedThreshold cfg),
              SlaveHosts := r.slave_hosts }, true, none)

/-- The clause `order by hostname, port`; host names are compared as character lists. -/
def rowOrder (a b : Row) : Bool :=
  decide (a.hostname.data < b.hostname.data) || (decide (a.hostname = b.hostname) && decide (a.port ≤ b.port))

/-- The `where` clause of `ReadProblemInstances`; `%d` is `config.Config.InstancePollSeconds`
and the lag bound is the literal `10` of the statement. -/
def problemWhere (cfg : Configuration) (now : Nat) (r : Row) : Option Bool :=
  sqlOr (sqlOr (sqlOr (sqlOr
    (sqlLt (r.last_seen.map Int.ofNat) (some (r.last_checked : Int)))
    (sqlNot (some (ifnull
      (sqlLe (some (timestampdiff r.last_checked now)) (some (cfg.InstancePollSeconds : Int))) false))))
    (sqlNot (some r.slave_sql_running)))
    (sqlNot (some r.slave_io_running)))
    (sqlLt (some 10) r.seconds_behind_master)

/-- The function `ReadProblemInstances`. -/
def ReadProblemInstances (f : ExecFaults) (cfg : Configuration) (now : Nat) (rows : List Row) :
    List Instance × Option Error :=
  match f.openErr with
  | some e => ([], some e)
  | none =>
    match f.execErr with
    | some e => ([], some e)
    | none =>
      let selected := rows.filter (fun r => problemWhere cfg now r == some true)
      let ordered := selected.insertionSort (fun a b => rowOrder a b = true)
      (ordered.map (fun r => readInstanceRow cfg (selectRow now r)), none)

/-- The backend as seen by the functions that send a statement assembled as text: the outcome
of `db.OpenOrchestrator` and, for every statement text, the error or the rows it selects. -/
structure TextBackend where
  openErr : Option Error
  run : String → Except Error (List Row)

/-- What a text query function returns, and the statements it sent to the backend. -/
structure QueryResult where
  instances : List Instance
  err : Option Error
  sent : List String
deriving DecidableEq, Repr

/-- The Go test `strings.Index(s, "\x27") >= 0`: the text holds a single-quote character. -/
def hasQuote (s : String) : Bool := s.data.contains (Char.ofNat 39)

/-- The statement text of `ReadClusterInstances`. -/
def clusterQuery (clusterName : String) : String :=
  "select *, timestampdiff(second, last_checked, now()) as seconds_since_last_checked, " ++
  "(last_checked <= last_seen) is true as is_last_check_valid, " ++
  "timestampdiff(second, last_seen, now()) as seconds_since_last_seen " ++
  "from database_instance where cluster_name = " ++ String.singleton (Char.ofNat 39) ++
  clusterName ++ String.singleton (Char.ofNat 39) ++ " order by hostname, port"

/-- The function `ReadClusterInstances`. -/
def ReadClusterInstances (b : TextBackend) (cfg : Configuration) (now : Nat)
    (clusterName : String) : QueryResult :=
  match b.openErr with
  | some e => ⟨[], some e, []⟩
  | none =>
    if hasQuote clusterName then
      ⟨[], some ("Invalid cluster name: " ++ clusterName), []⟩
    else
      let query := clusterQuery clusterName
      match b.run query with
      | .error e => ⟨[], some e, [query]⟩
      | .ok rs => ⟨rs.map (fun r => readInstanceRow cfg (selectRow now r)), none, [query]⟩

/-- One `like` or `=` condition of the search statement over the quoted search text. -/
def searchCond (column op pre post searchString : String) : String :=
  column ++ " " ++ op ++ " " ++ String.singleton (Char.ofNat 39) ++ pre ++ searchString ++ post ++
    String.singleton (Char.ofNat 39)

/-- The statement text of `SearchInstances`. -/
def searchQuery (searchString : String) : String :=
  "select *, timestampdiff(second, last_checked, now()) as seconds_since_last_checked, " ++
  "(last_checked <= last_seen) is true as is_last_check_valid, " ++
  "timestampdiff(second, last_seen, now()) as seconds_since_last_seen " ++
  "from database_instance where " ++
  searchCond "hostname" "like" "%" "%" searchString ++ " or " ++
  searchCond "cluster_name" "like" "%" "%" searchString ++ " or " ++
  searchCond "server_id" "=" "" "" searchString ++ " or " ++
  searchCond "version" "like" "%" "%" searchString ++ " or " ++
  searchCond "port" "=" "" "" searchString ++ " or " ++
  searchCond ("concat(hostname, " ++ String.singleton (Char.ofNat 39) ++ ":" ++
    String.singleton (Char.ofNat 39) ++ ", port)") "like" "%" "%" searchString ++
  " order by cluster_name, hostname, port"

/-- The function `SearchInstances`. -/
def SearchInstances (b : TextBackend) (cfg : Configuration) (now : Nat)
    (searchString : String) : QueryResult :=
  match b.openErr with
  | some e => ⟨[], some e, []⟩
  | none =>
    if hasQuote searchString then
      ⟨[], some ("Invalid searchString: " ++ searchString), []⟩
    else
      let query := searchQuery searchString
      match b.run query with
      | .error e => ⟨[], some e, [query]⟩
      | .ok rs => ⟨rs.map (fun r => readInstanceRow cfg (selectRow now r)), none, [query]⟩

/-! ## The topology inspector -/

/-- The function `ReadClusterNameByMaster`. The statement aggregates over the rows stored under
the master key: without such a row its `if` yields the empty text, with one it yields the
row's `cluster_name`, or `hostname:port` of that row when `cluster_name` is empty. -/
def ReadClusterNameByMaster (f : ExecFaults) (rows : List Row) (instanceKey masterKey : InstanceKey) :
    String × Option Error :=
  match f.openErr with
  | some e => ("", some e)
  | none =>
    match f.execErr with
    | some e => ("", some e)
    | none =>
      let clusterName : String :=
        match findRow rows masterKey with
        | none => ""
        | some r => if r.cluster_name ≠ "" then r.cluster_name else r.key.display
      if clusterName = "" then (instanceKey.display, none) else (clusterName, none)

/-- The row of `select @@global.server_id, @@global.version, ...`. -/
structure Globals where
  ServerID : Nat
  Version : String
  Binlog_format : String
  LogBinEnabled : Bool
  LogSlaveUpdatesEnabled : Bool
deriving DecidableEq, Repr, Inhabited

/-- A row of `show slave status`; `masterKey` is what `NewInstanceKeyFromStrings` returns for
the columns `Master_Host` and `Master_Port`. -/
structure SlaveStatus where
  Slave_IO_Running : String
  Slave_SQL_Running : String
  Master_Log_File : String
  Read_Master_Log_Pos : Int
  Relay_Master_Log_File : String
  Exec_Master_Log_Pos : Int
  masterKey : InstanceKey
  Seconds_Behind_Master : Option Int
deriving DecidableEq, Repr, Inhabited

/-- What the live database answers to each step of one probe. A replica row of `show slave
hosts` carries the result of `NewInstanceKeyFromStrings`, a row of the processlist query the
result of `GetCNAME`. -/
structure Topology where
  openErr : Option Error
  globals : Except Error Globals
  slaveStatus : Except Error (List SlaveStatus)
  lagQuery : Except Error (Option Int)
  masterStatus : Except Error (List BinlogCoordinates)
  slaveHosts : Except Error (List (Except Error InstanceKey))
  processlist : Except Error (List (Except Error String))

/-- Outcomes of the backend calls made during one probe. -/
structure ProbeFaults where
  cluster : ExecFaults
  write : WriteFaults
  lastChecked : ExecFaults
deriving DecidableEq, Repr, Inhabited

/-- No backend call fails. -/
def ProbeFaults.none : ProbeFaults := ⟨ExecFaults.none, WriteFaults.none, ExecFaults.none⟩

/-- The row callback of `show slave status`. -/
def applySlaveStatus (cfg : Configuration) (i : Instance) (m : SlaveStatus) : Instance :=
  let i1 := { i with
    Slave_IO_Running := decide (m.Slave_IO_Running = "Yes"),
    Slave_SQL_Running := decide (m.Slave_SQL_Running = "Yes"),
    ReadBinlogCoordinates := ⟨m.Master_Log_File, m.Read_Master_Log_Pos⟩,
    ExecBinlogCoordinates := ⟨m.Relay_Master_Log_File, m.Exec_Master_Log_Pos⟩,
    MasterKey := m.masterKey,
    SecondsBehindMaster := m.Seconds_Behind_Master }
  if cfg.SlaveLagQuery = "" then { i1 with SlaveLagSeconds := i1.SecondsBehindMaster } else i1

/-- The row callback of `show slave hosts` run over the rows: a row whose key does not parse
stops the iteration with its error. Returns the instance, the flag `foundBySlaveHosts` and
the error. -/
def addSlaveHosts : List (Except Error InstanceKey) → Instance → Bool → Instance × Bool × Option Error
  | [], i, found => (i, found, none)
  | .error e :: _, i, found => (i, found, some e)
  | .ok k :: rest, i, _ => addSlaveHosts rest (i.AddSlaveKey k) true

/-- The row callback of the processlist query run over the rows: a row whose `GetCNAME` fails
stops the iteration with its error. -/
def addProcesslist : List (Except Error String) → Instance → Instance × Option Error
  | [], i => (i, none)
  | .error e :: _, i => (i, some e)
  | .ok cname :: rest, i => addProcesslist rest (i.AddSlaveKey ⟨cname, i.Key.Port⟩)

/-- The steps of `ReadTopologyInstance` from `show master status` to the cluster name. -/
def probeTail (cfg : Configuration) (t : Topology) (f : ProbeFaults) (rows : List Row)
    (i : Instance) : Instance × Option Error :=
  match t.masterStatus with
  | .error e => (i, some e)
  | .ok ms =>
    let i := ms.foldl (fun (x : Instance) c => { x with SelfBinlogCoordinates := c }) i
    let viaHosts : Instance × Bool × Option Error :=
      if cfg.DiscoverByShowSlaveHosts then
        match t.slaveHosts with
        | .error e => (i, false, some e)
        | .ok hs => addSlaveHosts hs i false
      else (i, false, none)
    match viaHosts with
    | (i, _, some e) => (i, some e)
    | (i, foundBySlaveHosts, none) =>
      let viaProcesslist : Instance × Option Error :=
        if !foundBySlaveHosts then
          match t.processlist with
          | .error e => (i, some e)
          | .ok ps => addProcesslist ps i
        else (i, none)
      match viaProcesslist with
      | (i, some e) => (i, some e)
      | (i, none) =>
        let (name, err) := ReadClusterNameByMaster f.cluster rows i.Key i.MasterKey
        ({ i with ClusterName := name }, err)

/-- The steps of `ReadTopologyInstance` before the label `Cleanup`: the instance, the flag
`instanceFound` and the error. -/
def probeSteps (cfg : Configuration) (t : Topology) (f : ProbeFaults) (rows : List Row)
    (instanceKey : InstanceKey) : Instance × Bool × Option Error :=
  match t.openErr with
  | some e => (NewInstance, false, some e)
  | none =>
    let i := { NewInstance with Key := instanceKey }
    match t.globals with
    | .error e => (i, false, some e)
    | .ok g =>
      let i := { i with ServerID := g.ServerID, Version := g.Version,
                        Binlog_format := g.Binlog_format, LogBinEnabled := g.LogBinEnabled,
                        LogSlaveUpdatesEnabled := g.LogSlaveUpdatesEnabled }
      match t.slaveStatus with
      | .error e => (i, true, some e)
      | .ok ss =>
        let i := ss.foldl (applySlaveStatus cfg) i
        if cfg.SlaveLagQuery ≠ "" then
          match t.lagQuery with
          | .error e => (i, true, some e)
          | .ok lag =>
            let r := probeTail cfg t f rows { i with SlaveLagSeconds := lag }
            (r.1, true, r.2)
        else
          let r := probeTail cfg t f rows i
          (r.1, true, r.2)

/-- The function `ReadTopologyInstance`: the instance, the error and the table afterwards.
Past `Cleanup` the results of `WriteInstance` and `UpdateInstanceLastChecked` are dropped. -/
def ReadTopologyInstance (cfg : Configuration) (t : Topology) (f : ProbeFaults)
    (lastSeenDefault : Option Nat) (now : Nat) (rows : List Row) (instanceKey : InstanceKey) :
    Instance × Option Error × List Row :=
  match probeSteps cfg t f rows instanceKey with
  | (inst, true, err) =>
    (inst, err, (WriteInstance f.write lastSeenDefault now rows inst err).2)
  | (inst, false, err) =>
    (inst, err, (UpdateInstanceLastChecked f.lastChecked now rows instanceKey).2)

/-! ## Replication operations -/

/-- The live side of an operation: the results of the successive calls of
`ReadTopologyInstance` and of `ExecInstance` still to come, and the commands issued so far. -/
structure Script where
  probes : List (Instance × Option Error)
  execs : List (Option Error)
  issued : List String
deriving DecidableEq, Repr, Inhabited

/-- A call of `ExecInstance`: `none` when the script holds no further command result. -/
def Script.exec (s : Script) (cmd : String) : Option (Option Error × Script) :=
  match s.execs with
  | [] => none
  | e :: rest => some (e, { s with execs := rest, issued := s.issued ++ [cmd] })

/-- A call of `ReadTopologyInstance`: `none` when the script holds no further probe result. -/
def Script.probe (s : Script) : Option ((Instance × Option Error) × Script) :=
  match s.probes with
  | [] => none
  | p :: rest => some (p, { s with probes := rest })

/-- What an operation returns: instance, error, and the script left. -/
abbrev OpResult := Instance × Option Error × Script

/-- The text of the error `instance is not a slave: <key>`. -/
def notSlaveError (k : InstanceKey) : Error := "instance is not a slave: &" ++ k.plusV

/-- The polling loop of `StopSlaveNicely` over the probe results to come: the instance and
error of the probe that ends it, and the probe results left; `none` when the results run out
while the loop is still polling. -/
def pollSQLThread : List (Instance × Option Error) →
    Option (Instance × Option Error × List (Instance × Option Error))
  | [] => none
  | (inst, some e) :: rest => some (inst, some e, rest)
  | (inst, none) :: rest =>
    if inst.SQLThreadUpToDate then some (inst, none, rest) else pollSQLThread rest

/-- The function `StopSlaveNicely`. The result of `stop slave io_thread` is overwritten by the
next probe without being read. -/
def StopSlaveNicely (k : InstanceKey) (s : Script) : Option OpResult :=
  match s.probe with
  | none => none
  | some ((inst, some e), s) => some (inst, some e, s)
  | some ((inst, none), s) =>
    if !inst.IsSlave then some (inst, some (notSlaveError k), s)
    else
      match s.exec "stop slave io_thread" with
      | none => none
      | some (_, s) =>
        match pollSQLThread s.probes with
        | none => none
        | some (inst, some e, rest) => some (inst, some e, { s with probes := rest })
        | some (inst, none, rest) =>
          match Script.exec { s with probes := rest } "stop slave" with
          | none => none
          | some (some e, s) => some (inst, some e, s)
          | some (none, s) =>
            match s.probe with
            | none => none
            | some ((inst, err), s) => some (inst, err, s)

/-- The function `StopSlave`. -/
def StopSlave (k : InstanceKey) (s : Script) : Option OpResult :=
  match s.probe with
  | none => none
  | some ((inst, some e), s) => some (inst, some e, s)
  | some ((inst, none), s) =>
    if !inst.IsSlave then some (inst, some (notSlaveError k), s)
    else
      match s.exec "stop slave" with
      | none => none
      | some (some e, s) => some (inst, some e, s)
      | some (none, s) =>
        match s.probe with
        | none => none
        | some ((inst, err), s) => some (inst, err, s)

/-- The text of the overshoot error of `StartSlaveUntilMasterCoordinates`. -/
def overshootError (k : InstanceKey) : Error :=
  "Start SLAVE UNTIL is past coordinates: &" ++ k.plusV

/-- The polling loop of `StartSlaveUntilMasterCoordinates` over the probe results to come, with
the cases of its `switch` in their order; a probe that matches no case polls again. -/
def pollUntilCoordinates (k : InstanceKey) (masterCoordinates : BinlogCoordinates) :
    List (Instance × Option Error) →
    Option (Instance × Option Error × List (Instance × Option Error))
  | [] => none
  | (inst, some e) :: rest => some (inst, some e, rest)
  | (inst, none) :: rest =>
    if inst.ExecBinlogCoordinates.SmallerThan masterCoordinates then
      pollUntilCoordinates k masterCoordinates rest
    else if inst.ExecBinlogCoordinates.Equals masterCoordinates then
      some (inst, none, rest)
    else if masterCoordinates.SmallerThan inst.ExecBinlogCoordinates then
      some (inst, some (overshootError k), rest)
    else pollUntilCoordinates k masterCoordinates rest

/-- The command text of `start slave until`. -/
def startUntilCommand (c : BinlogCoordinates) : String :=
  "start slave until master_log_file=" ++ String.singleton (Char.ofNat 39) ++ c.LogFile ++
    String.singleton (Char.ofNat 39) ++ ", master_log_pos=" ++ toString c.LogPos

/-- The function `StartSlaveUntilMasterCoordinates`. -/
def StartSlaveUntilMasterCoordinates (k : InstanceKey) (masterCoordinates : BinlogCoordinates)
    (s : Script) : Option OpResult :=
  match s.probe with
  | none => none
  | some ((inst, some e), s) => some (inst, some e, s)
  | some ((inst, none), s) =>
    if !inst.IsSlave then some (inst, some (notSlaveError k), s)
    else if inst.SlaveRunning then
      some (inst, some ("slave already running: &" ++ k.plusV), s)
    else
      match s.exec (startUntilCommand masterCoordinates) with
      | none => none
      | some (some e, s) => some (inst, some e, s)
      | some (none, s) =>
        match pollUntilCoordinates k masterCoordinates s.probes with
        | none => none
        | some (inst, some e, rest) => some (inst, some e, { s with probes := rest })
        | some (_, none, rest) => StopSlave k { s with probes := rest }

/-! ## Forgetting instances, outdated keys and the audit trail -/

/-- One row of the table `audit`. -/
structure AuditRow where
  audit_id : Nat
  audit_timestamp : Nat
  audit_type : String
  hostname : String
  port : Nat
  message : String
deriving DecidableEq, Repr, Inhabited

/-- The value that the auto-increment column `audit_id` takes on the next insert. -/
def nextAuditId (audit : List AuditRow) : Nat :=
  (audit.map AuditRow.audit_id).foldl max 0 + 1

/-- The function `AuditOperation` (audit_dao.go): a `nil` key is replaced by the zero key; the
row is inserted with `audit_timestamp = NOW()`. -/
def AuditOperation (f : ExecFaults) (now : Nat) (audit : List AuditRow) (auditType : String)
    (instanceKey : Option InstanceKey) (message : String) : Option Error × List AuditRow :=
  match f.openErr with
  | some e => (some e, audit)
  | none =>
    let instanceKey : InstanceKey := instanceKey.getD ⟨"", 0⟩
    match f.execErr with
    | some e => (some e, audit)
    | none =>
      (none, audit ++ [⟨nextAuditId audit, now, auditType, instanceKey.Hostname,
        instanceKey.Port, message⟩])

/-- Outcomes of the backend calls of the two forget functions: `db.OpenOrchestrator`, the
`delete` statement, and the calls made inside `AuditOperation`. -/
structure ForgetFaults where
  openErr : Option Error
  deleteErr : Option Error
  audit : ExecFaults
deriving DecidableEq, Repr, Inhabited

/-- No backend call fails. -/
def ForgetFaults.none : ForgetFaults := ⟨Option.none, Option.none, ExecFaults.none⟩

/-- The function `ForgetInstance`: the error, the table `database_instance` and the table
`audit` afterwards. `AuditOperation` is called after the `delete` statement whatever that
statement returned, and its own result is dropped. -/
def ForgetInstance (f : ForgetFaults) (now : Nat) (rows : List Row) (audit : List AuditRow)
    (instanceKey : InstanceKey) : Option Error × List Row × List AuditRow :=
  match f.openErr with
  | some e => (some e, rows, audit)
  | none =>
    let rows1 : List Row :=
      match f.deleteErr with
      | some _ => rows
      | none => rows.filter (fun r => !(Row.hasKey instanceKey r))
    (f.deleteErr, rows1, (AuditOperation f.audit now audit "forget" (some instanceKey) "").2)

/-- The condition `last_seen < NOW() - interval ? hour` with `UnseenInstanceForgetHours`
bound to the parameter. -/
def unseenWhere (cfg : Configuration) (now : Nat) (r : Row) : Option Bool :=
  sqlLt (r.last_seen.map Int.ofNat)
    (some ((now : Int) - 3600 * (cfg.UnseenInstanceForgetHours : Int)))

/-- The function `ForgetLongUnseenInstances`. -/
def ForgetLongUnseenInstances (f : ForgetFaults) (cfg : Configuration) (now : Nat)
    (rows : List Row) (audit : List AuditRow) : Option Error × List Row × List AuditRow :=
  match f.openErr with
  | some e => (some e, rows, audit)
  | none =>
    let rows1 : List Row :=
      match f.deleteErr with
      | some _ => rows
      | none => rows.filter (fun r => !(unseenWhere cfg now r == some true))
    (f.deleteErr, rows1, (AuditOperation f.audit now audit "forget-unseen" none "").2)

/-- Modelled from the spec: `NewInstanceKeyFromStrings` (instance_key.go is not among the
sources) creates a key from validated strings, and ports outside 1..65535 fail parsing. The
port is given as the number that its text denotes. -/
def NewInstanceKeyFromStrings (hostname : String) (port : Nat) : Except Error InstanceKey :=
  if 1 ≤ port ∧ port ≤ 65535 then .ok ⟨hostname, port⟩
  else .error ("Invalid port: " ++ toString port)

/-- The condition `last_checked < now() - interval %d second` with `InstancePollSeconds`
printed into the statement. -/
def outdatedWhere (cfg : Configuration) (now : Nat) (r : Row) : Bool :=
  decide ((r.last_checked : Int) < (now : Int) - (cfg.InstancePollSeconds : Int))

/-- The function `ReadOutdatedInstanceKeys`: a selected row whose key does not parse is
logged and left out. -/
def ReadOutdatedInstanceKeys (f : ExecFaults) (cfg : Configuration) (now : Nat)
    (rows : List Row) : List InstanceKey × Option Error :=
  match f.openErr with
  | some e => ([], some e)
  | none =>
    match f.execErr with
    | some e => ([], some e)
    | none =>
      ((rows.filter (outdatedWhere cfg now)).filterMap (fun r =>
        match NewInstanceKeyFromStrings r.hostname r.port with
        | .ok k => some k
        | .error _ => none), none)

/-- The type `Audit`; `AuditTimestamp` holds the time that the text of the column denotes. -/
structure Audit where
  AuditId : Int
  AuditTimestamp : Nat
  AuditType : String
  AuditInstanceKey : InstanceKey
  Message : String
deriving DecidableEq, Repr, Inhabited

/-- The row callback of `ReadRecentAudit`. -/
def readAuditRow (m : AuditRow) : Audit :=
  { AuditId := m.audit_id, AuditTimestamp := m.audit_timestamp, AuditType := m.audit_type,
    AuditInstanceKey := ⟨m.hostname, m.port⟩, Message := m.message }

/-- What the backend may answer to `select ... from audit order by audit_timestamp desc`: the
rows of the table rearranged so that the timestamps do not increase. The statement names no
other sort column, so rows with equal timestamps come in an order of the backend's choosing. -/
def orderedByTimestampDesc (table ordered : List AuditRow) : Prop :=
  ordered.Perm table ∧ ordered.Sorted (fun a b => b.audit_timestamp ≤ a.audit_timestamp)

/-- Arithmetic of the Go type `int` on the 64-bit targets: the result wraps into
`[-2^63, 2^63)`. -/
def wrapInt (x : Int) : Int := (x + 2 ^ 63) % 2 ^ 64 - 2 ^ 63

/-- The function `ReadRecentAudit`, given the rows in the order in which the backend answers
the `order by` clause: `limit` is `AuditPageSize`, `offset` is the Go product
`page * AuditPageSize`; a negative `limit` or `offset` is a syntax error of the statement. -/
def ReadRecentAudit (f : ExecFaults) (cfg : Configuration) (ordered : List AuditRow)
    (page : Int) : List Audit × Option Error :=
  match f.openErr with
  | some e => ([], some e)
  | none =>
    match f.execErr with
    | some e => ([], some e)
    | none =>
      let limit := cfg.AuditPageSize
      let offset := wrapInt (page * cfg.AuditPageSize)
      if limit < 0 ∨ offset < 0 then ([], some "You have an error in your SQL syntax")
      else (((ordered.drop offset.toNat).take limit.toNat).map readAuditRow, none)

/-! ## The HTTP layer (http/api.go) -/

/-- The type `APIResponseCode`. -/
inductive APIResponseCode where
  | ERROR
  | OK
deriving DecidableEq, Repr, Inhabited

/-- Modelled from the spec: a maintenance claim as `ReadActiveMaintenance` lists it
(maintenance_dao.go is not among the sources): id, instance key, owner, reason and begin
timestamp. -/
structure Maintenance where
  MaintenanceId : Int
  Key : InstanceKey
  Owner : String
  Reason : String
  BeginTimestamp : Nat
deriving DecidableEq, Repr, Inhabited

/-- A value passed to the JSON renderer, as the field `Details` of an `APIResponse` or as the
whole body; `nil` is the field left unset. -/
inductive Payload where
  | nil
  | one (i : Orchestrator.Instance)
  | many (l : List Orchestrator.Instance)
  | maintenanceKey (key : Int)
  | claims (l : List Maintenance)
  | names (l : List String)
  | audits (l : List Audit)
deriving DecidableEq, Repr, Inhabited

/-- The type `APIResponse`. -/
structure APIResponse where
  Code : APIResponseCode
  Message : String
  Details : Payload
deriving DecidableEq, Repr, Inhabited

/-- What a handler passes to `r.JSON(200, ...)`: an `APIResponse` or a bare payload. -/
inductive Response where
  | envelope (r : APIResponse)
  | payload (p : Payload)
deriving DecidableEq, Repr, Inhabited

/-- The `Code` of a response, when the response is an `APIResponse`. -/
def Response.code : Response → Option APIResponseCode
  | .envelope r => some r.Code
  | .payload _ => none

/-- The handler `HttpAPI.Instance`. `key` is what `getInstanceKey` returns for the request,
`ReadInstance` the core function. -/
def HttpAPI.Instance (key : InstanceKey × Option Error)
    (ReadInstance : InstanceKey → Orchestrator.Instance × Bool × Option Error) : Response :=
  match key.2 with
  | some e => .envelope ⟨.ERROR, e, .nil⟩
  | none =>
    match ReadInstance key.1 with
    | (inst, found, err) =>
      if (!found) || err.isSome then
        .envelope ⟨.ERROR, "Cannot read instance: " ++ key.1.plusV, .nil⟩
      else .payload (.one inst)

/-- The handler `HttpAPI.Discover`; the discovery runs on its own and reports nothing back. -/
def HttpAPI.Discover (key : InstanceKey × Option Error) : Response :=
  match key.2 with
  | some e => .envelope ⟨.ERROR, e, .nil⟩
  | none => .envelope ⟨.OK, "Instance submitted for discovery: " ++ key.1.plusV, .nil⟩

/-- The handler `HttpAPI.Refresh`. -/
def HttpAPI.Refresh (key : InstanceKey × Option Error)
    (RefreshTopologyInstance : InstanceKey → Orchestrator.Instance × Option Error) : Response :=
  match key.2 with
  | some e => .envelope ⟨.ERROR, e, .nil⟩
  | none =>
    match (RefreshTopologyInstance key.1).2 with
    | some e => .envelope ⟨.ERROR, e, .nil⟩
    | none => .envelope ⟨.OK, "Instance refreshedh: " ++ key.1.plusV, .nil⟩

/-- The handler `HttpAPI.Forget`; the result of `inst.ForgetInstance` is not read. -/
def HttpAPI.Forget (key : InstanceKey × Option Error)
    (ForgetInstance : InstanceKey → Option Error) : Response :=
  match key.2 with
  | some e => .envelope ⟨.ERROR, e, .nil⟩
  | none =>
    match ForgetInstance key.1 with
    | _ => .envelope ⟨.OK, "Instance forgotten: " ++ key.1.plusV, .nil⟩

/-- The handler `HttpAPI.BeginMaintenance`. -/
def HttpAPI.BeginMaintenance (key : InstanceKey × Option Error) (owner reason : String)
    (BeginMaintenance : InstanceKey → String → String → Int × Option Error) : Response :=
  match key.2 with
  | some e => .envelope ⟨.ERROR, e, .nil⟩
  | none =>
    match BeginMaintenance key.1 owner reason with
    | (k, some e) => .envelope ⟨.ERROR, e, .maintenanceKey k⟩
    | (_, none) => .envelope ⟨.OK, "Maintenance begun: " ++ key.1.plusV, .nil⟩

/-- The handler `HttpAPI.EndMaintenance`; `maintenanceKey` is what `strconv.ParseInt` returns
for the request. -/
def HttpAPI.EndMaintenance (maintenanceKey : Int × Option Error)
    (EndMaintenance : Int → Option Error) : Response :=
  match maintenanceKey.2 with
  | some e => .envelope ⟨.ERROR, e, .nil⟩
  | none =>
    match EndMaintenance maintenanceKey.1 with
    | some e => .envelope ⟨.ERROR, e, .nil⟩
    | none => .envelope ⟨.OK, "Maintenance ended: " ++ toString maintenanceKey.1, .nil⟩

/-- The handler `HttpAPI.EndMaintenanceByInstanceKey`. -/
def HttpAPI.EndMaintenanceByInstanceKey (key : InstanceKey × Option Error)
    (EndMaintenanceByInstanceKey : InstanceKey → Option Error) : Response :=
  match key.2 with
  | some e => .envelope ⟨.ERROR, e, .nil⟩
  | none =>
    match EndMaintenanceByInstanceKey key.1 with
    | some e => .envelope ⟨.ERROR, e, .nil⟩
    | none => .envelope ⟨.OK, "Maintenance ended: " ++ key.1.plusV, .nil⟩

/-- The handler `HttpAPI.Maintenance`; `%+v` of an error is its text. -/
def HttpAPI.Maintenance (ReadActiveMaintenance : List Maintenance × Option Error) : Response :=
  match ReadActiveMaintenance with
  | (_, some e) => .envelope ⟨.ERROR, e, .nil⟩
  | (l, none) => .payload (.claims l)

/-- The handler `HttpAPI.MoveUp`. -/
def HttpAPI.MoveUp (key : InstanceKey × Option Error)
    (MoveUp : InstanceKey → Orchestrator.Instance × Option Error) : Response :=
  match key.2 with
  | some e => .envelope ⟨.ERROR, e, .nil⟩
  | none =>
    match MoveUp key.1 with
    | (_, some e) => .envelope ⟨.ERROR, e, .nil⟩
    | (inst, none) => .envelope ⟨.OK, "Instance moved up", .one inst⟩

/-- The handler `HttpAPI.MoveBelow`. -/
def HttpAPI.MoveBelow (key siblingKey : InstanceKey × Option Error)
    (MoveBelow : InstanceKey → InstanceKey → Orchestrator.Instance × Option Error) : Response :=
  match key.2 with
  | some e => .envelope ⟨.ERROR, e, .nil⟩
  | none =>
    match siblingKey.2 with
    | some e => .envelope ⟨.ERROR, e, .nil⟩
    | none =>
      match MoveBelow key.1 siblingKey.1 with
      | (_, some e) => .envelope ⟨.ERROR, e, .nil⟩
      | (inst, none) =>
        .envelope ⟨.OK, "Instance " ++ key.1.plusV ++ " moved below " ++ siblingKey.1.plusV,
          .one inst⟩

/-- The handler `HttpAPI.StartSlave`. -/
def HttpAPI.StartSlave (key : InstanceKey × Option Error)
    (StartSlave : InstanceKey → Orchestrator.Instance × Option Error) : Response :=
  match key.2 with
  | some e => .envelope ⟨.ERROR, e, .nil⟩
  | none =>
    match StartSlave key.1 with
    | (_, some e) => .envelope ⟨.ERROR, e, .nil⟩
    | (inst, none) => .envelope ⟨.OK, "Slave started", .one inst⟩

/-- The handler `HttpAPI.StopSlave`. -/
def HttpAPI.StopSlave (key : InstanceKey × Option Error)
    (StopSlave : InstanceKey → Orchestrator.Instance × Option Error) : Response :=
  match key.2 with
  | some e => .envelope ⟨.ERROR, e, .nil⟩
  | none =>
    match StopSlave key.1 with
    | (_, some e) => .envelope ⟨.ERROR, e, .nil⟩
    | (inst, none) => .envelope ⟨.OK, "Slave stopped", .one inst⟩

/-- The handler `HttpAPI.Cluster`. -/
def HttpAPI.Cluster (clusterName : String)
    (ReadClusterInstances : String → List Orchestrator.Instance × Option Error) : Response :=
  match ReadClusterInstances clusterName with
  | (_, some e) => .envelope ⟨.ERROR, e, .nil⟩
  | (l, none) => .payload (.many l)

/-- The handler `HttpAPI.Clusters`. -/
def HttpAPI.Clusters (ReadClusters : List String × Option Error) : Response :=
  match ReadClusters with
  | (_, some e) => .envelope ⟨.ERROR, e, .nil⟩
  | (l, none) => .payload (.names l)

/-- The handler `HttpAPI.Search`: the path parameter, or the query parameter `s` when the path
parameter is empty. -/
def HttpAPI.Search (searchString queryS : String)
    (SearchInstances : String → List Orchestrator.Instance × Option Error) : Response :=
  let searchString := if searchString = "" then queryS else searchString
  match SearchInstances searchString with
  | (_, some e) => .envelope ⟨.ERROR, e, .nil⟩
  | (l, none) => .payload (.many l)

/-- The handler `HttpAPI.Problems`. -/
def HttpAPI.Problems (ReadProblemInstances : List Orchestrator.Instance × Option Error) :
    Response :=
  match ReadProblemInstances with
  | (_, some e) => .envelope ⟨.ERROR, e, .nil⟩
  | (l, none) => .payload (.many l)

/-- The page that `HttpAPI.Audit` asks for; `atoi` is what `strconv.Atoi` returns for the
request. -/
def HttpAPI.auditPage (atoi : Int × Option Error) : Int :=
  if atoi.2.isSome ∨ atoi.1 < 0 then 0 else atoi.1

/-- The handler `HttpAPI.Audit`. -/
def HttpAPI.Audit (atoi : Int × Option Error)
    (ReadRecentAudit : Int → List Audit × Option Error) : Response :=
  match ReadRecentAudit (HttpAPI.auditPage atoi) with
  | (_, some e) => .envelope ⟨.ERROR, e, .nil⟩
  | (l, none) => .payload (.audits l)

/-! ## Concrete data used by the witnesses and counterexamples -/

/-- The key `db1:3306`. -/
def db1 : InstanceKey := ⟨"db1", 3306⟩

/-- The key `db2:3306`. -/
def db2 : InstanceKey := ⟨"db2", 3306⟩

/-- A healthy replica `db2:3306` of `db1:3306` whose SQL thread lags behind its IO thread. -/
def replicaLagging : Instance :=
  { NewInstance with
    Key := db2, ServerID := 2, Version := "5.5", MasterKey := db1,
    Slave_SQL_Running := true, Slave_IO_Running := true,
    ReadBinlogCoordinates := ⟨"bin.000001", 500⟩,
    ExecBinlogCoordinates := ⟨"bin.000001", 400⟩,
    SecondsBehindMaster := some 0, SlaveLagSeconds := some 0, ClusterName := "db1:3306" }

/-- The same replica with both threads running and the relay log fully applied. -/
def replicaCaughtUp : Instance :=
  { replicaLagging with ExecBinlogCoordinates := ⟨"bin.000001", 500⟩ }

/-- The same replica with both threads stopped and the relay log fully applied. -/
def replicaStopped : Instance :=
  { replicaCaughtUp with Slave_SQL_Running := false, Slave_IO_Running := false }

/-- A catalog row of `db2:3306`, checked and seen at second 100. -/
def rowDb2 : Row := { instanceRow (some 100) 100 replicaCaughtUp with last_seen := some 100 }

/-! ## Lemmas on the table -/

theorem hasKey_instanceRow (d : Option Nat) (now : Nat) (i : Instance) :
    Row.hasKey i.Key (instanceRow d now i) = true := by
  simp [Row.hasKey, instanceRow]

theorem hasKey_key (r : Row) : Row.hasKey r.key r = true := by
  simp [Row.hasKey, Row.key]

theorem findRow_replaceInto (rows : List Row) (r : Row) :
    findRow (replaceInto rows r) r.key = some r := by
  simp [findRow, replaceInto, List.find?, hasKey_key]

theorem findRow_map_update (k : InstanceKey) (g : Row → Row)
    (hg : ∀ x, Row.hasKey k (g x) = Row.hasKey k x) (rows : List Row) :
    findRow (rows.map (fun x => if Row.hasKey k x then g x else x)) k = (findRow rows k).map g := by
  induction rows with
  | nil => rfl
  | cons a t ih =>
    unfold findRow at ih ⊢
    by_cases h : Row.hasKey k a = true
    · simp [List.find?, h, hg]
    · simp only [Bool.not_eq_true] at h
      simp [List.find?, h, ih]

theorem findRow_updateLastSeen (rows : List Row) (k : InstanceKey) (now : Nat) :
    findRow (updateLastSeen rows k now) k =
      (findRow rows k).map (fun x => { x with last_seen := some now }) :=
  findRow_map_update k (fun x => { x with last_seen := some now }) (fun _ => rfl) rows

theorem findRow_updateLastChecked (rows : List Row) (k : InstanceKey) (now : Nat) :
    findRow (updateLastChecked rows k now) k =
      (findRow rows k).map (fun x => { x with last_checked := now }) :=
  findRow_map_update k (fun x => { x with last_checked := now }) (fun _ => rfl) rows

theorem findRow_instanceRow (rows : List Row) (d : Option Nat) (now : Nat) (i : Instance) :
    findRow (replaceInto rows (instanceRow d now i)) i.Key = some (instanceRow d now i) :=
  findRow_replaceInto rows (instanceRow d now i)

/-! ## C5: `WriteInstance` and the two timestamps -/

/-- C5, as stated, fails: `WriteInstance` with a `lastError` succeeds on a catalog whose row
of `db2:3306` was last seen at second 100, and the row it leaves has `last_seen` NULL (the
column default of the replaced row), not the 100 it had before the call. -/
theorem WriteInstance_drops_last_seen :
    (WriteInstance WriteFaults.none none 200 [rowDb2] replicaCaughtUp (some "boom")).1 = none ∧
    (findRow [rowDb2] db2).map Row.last_seen = some (some 100) ∧
    (findRow (WriteInstance WriteFaults.none none 200 [rowDb2] replicaCaughtUp (some "boom")).2
      db2).map Row.last_seen = some none := by
  decide

/-- C5, amended: after `WriteInstance(i, lastError)` returns `nil` the row keyed by `i.Key` has
`last_checked = now`; without a `lastError`, and when the follow-up `update` runs, its
`last_seen` is `now`; with a `lastError` its `last_seen` is the column default of the freshly
replaced row, whatever the row held before. So, for a default other than `now`, `last_seen` is
`now` iff `lastError` is absent. -/
theorem WriteInstance_timestamps (f : WriteFaults) (dflt : Option Nat) (now : Nat)
    (rows rows' : List Row) (i : Instance) (lastError : Option Error)
    (h : WriteInstance f dflt now rows i lastError = (none, rows')) :
    ∃ row, findRow rows' i.Key = some row ∧ row.last_checked = now ∧
      (lastError = none → f.updateErr = none → row.last_seen = some now) ∧
      (lastError ≠ none → row.last_seen = dflt) ∧
      (f.updateErr = none → dflt ≠ some now → (row.last_seen = some now ↔ lastError = none)) := by
  unfold WriteInstance at h
  cases ho : f.openErr with
  | some e => simp [ho] at h
  | none =>
    cases hr : f.replaceErr with
    | some e => simp [ho, hr] at h
    | none =>
      cases lastError with
      | some e =>
        simp only [ho, hr, Prod.mk.injEq, true_and] at h
        subst h
        refine ⟨_, findRow_instanceRow rows dflt now i, rfl, ?_, ?_, ?_⟩
        · intro h1; cases h1
        · intro _; rfl
        · intro _ hd
          constructor
          · intro h1; exact absurd h1 hd
          · intro h1; cases h1
      | none =>
        cases hu : f.updateErr with
        | some e =>
          simp only [ho, hr, hu, Prod.mk.injEq, true_and] at h
          subst h
          refine ⟨_, findRow_instanceRow rows dflt now i, rfl, ?_, ?_, ?_⟩
          · intro _ h2; cases h2
          · intro h1; exact absurd rfl h1
          · intro h2; cases h2
        | none =>
          simp only [ho, hr, hu, Prod.mk.injEq, true_and] at h
          subst h
          refine ⟨{ instanceRow dflt now i with last_seen := some now }, ?_, ?_, ?_, ?_, ?_⟩
          · rw [findRow_updateLastSeen, findRow_instanceRow]; rfl
          · rfl
          · intro _ _; rfl
          · intro h1; exact absurd rfl h1
          · intro _ _; exact ⟨fun _ => rfl, fun _ => rfl⟩

/-- A run of `WriteInstance_timestamps`: a write of `db2:3306` without `lastError` at second 200. -/
theorem WriteInstance_timestamps_witness :
    ∃ row, findRow (updateLastSeen (replaceInto [rowDb2] (instanceRow none 200 replicaCaughtUp))
        replicaCaughtUp.Key 200) replicaCaughtUp.Key = some row ∧ row.last_checked = 200 ∧
      ((none : Option Error) = none → WriteFaults.none.updateErr = none →
        row.last_seen = some 200) ∧
      ((none : Option Error) ≠ none → row.last_seen = none) ∧
      (WriteFaults.none.updateErr = none → (none : Option Nat) ≠ some 200 →
        (row.last_seen = some 200 ↔ (none : Option Error) = none)) :=
  WriteInstance_timestamps WriteFaults.none none 200 [rowDb2] _ replicaCaughtUp none rfl

/-! ## C6: the derived freshness flags -/

/-- A configuration whose poll interval makes `InstancePollSeconds * 5` wrap around to 4. -/
def cfgWrapping : Configuration :=
  { NewConfiguration with InstancePollSeconds := 3689348814741910324 }

/-- C6, as stated, fails: with `InstancePollSeconds = 3689348814741910324` a row checked 10
seconds ago has `secondsSinceLastChecked ≤ 5·InstancePollSeconds`, yet both `readInstanceRow`
and `ReadInstance` set `IsRecentlyChecked` to false, the `uint` product being 4. -/
theorem IsRecentlyChecked_wraps :
    (selectRow 110 rowDb2).seconds_since_last_checked = 10 ∧
    10 ≤ 5 * cfgWrapping.InstancePollSeconds ∧
    cfgWrapping.InstancePollSeconds < uintSize ∧
    (readInstanceRow cfgWrapping (selectRow 110 rowDb2)).IsRecentlyChecked = false ∧
    (ReadInstance ExecFaults.none cfgWrapping 110 [rowDb2] db2).2.1 = true ∧
    (ReadInstance ExecFaults.none cfgWrapping 110 [rowDb2] db2).1.IsRecentlyChecked = false := by
  decide

/-- C6, amended: `readInstanceRow` and `ReadInstance` set `IsUpToDate` exactly when
`secondsSinceLastChecked ≤ InstancePollSeconds`, and `IsRecentlyChecked` exactly when
`secondsSinceLastChecked ≤ (InstancePollSeconds * 5) mod 2^64`, which is
`5·InstancePollSeconds` whenever that product is below `2^64`; in particular `IsUpToDate`
implies `secondsSinceLastChecked ≤ InstancePollSeconds`. -/
theorem freshness_flags (cfg : Configuration) :
    (∀ m : RowMap,
      ((readInstanceRow cfg m).IsUpToDate = true ↔
        m.seconds_since_last_checked ≤ cfg.InstancePollSeconds) ∧
      ((readInstanceRow cfg m).IsRecentlyChecked = true ↔
        m.seconds_since_last_checked ≤ (cfg.InstancePollSeconds * 5) % 2 ^ 64) ∧
      (5 * cfg.InstancePollSeconds < 2 ^ 64 →
        ((readInstanceRow cfg m).IsRecentlyChecked = true ↔
          m.seconds_since_last_checked ≤ 5 * cfg.InstancePollSeconds))) ∧
    (∀ (f : ExecFaults) (now : Nat) (rows : List Row) (k : InstanceKey) (i : Instance)
      (err : Option Error), ReadInstance f cfg now rows k = (i, true, err) →
      ∃ (r : Row) (secondsSinceLastChecked : Nat), findRow rows k = some r ∧
        (secondsSinceLastChecked : Int) = timestampdiff r.last_checked now ∧
        (i.IsUpToDate = true ↔ secondsSinceLastChecked ≤ cfg.InstancePollSeconds) ∧
        (i.IsRecentlyChecked = true ↔
          secondsSinceLastChecked ≤ (cfg.InstancePollSeconds * 5) % 2 ^ 64) ∧
        (5 * cfg.InstancePollSeconds < 2 ^ 64 →
          (i.IsRecentlyChecked = true ↔
            secondsSinceLastChecked ≤ 5 * cfg.InstancePollSeconds))) := by
  have hmod : 5 * cfg.InstancePollSeconds < 2 ^ 64 →
      (cfg.InstancePollSeconds * 5) % 2 ^ 64 = 5 * cfg.InstancePollSeconds := by
    intro h
    rw [Nat.mul_comm, Nat.mod_eq_of_lt h]
  constructor
  · intro m
    refine ⟨?_, ?_, ?_⟩
    · simp [readInstanceRow]
    · simp [readInstanceRow, recentlyCheckedThreshold, uintSize]
    · intro h
      rw [← hmod h]
      simp [readInstanceRow, recentlyCheckedThreshold, uintSize]
  · intro f now rows k i err h
    unfold ReadInstance at h
    cases ho : f.openErr with
    | some e => simp [ho] at h
    | none =>
      cases he : f.execErr with
      | some e => simp [ho, he] at h
      | none =>
        cases hf : findRow rows k with
        | none => simp [ho, he, hf] at h
        | some r =>
          simp only [ho, he, hf] at h
          by_cases hs : timestampdiff r.last_checked now < 0 ∨
              (uintSize : Int) ≤ timestampdiff r.last_checked now
          · simp [hs] at h
          · simp only [hs, if_false, Prod.mk.injEq, and_true, true_and] at h
            obtain ⟨hi, _⟩ := h
            have hnn : 0 ≤ timestampdiff r.last_checked now := by
              by_contra hc
              exact hs (Or.inl (lt_of_not_le hc))
            refine ⟨r, (timestampdiff r.last_checked now).toNat, rfl, Int.toNat_of_nonneg hnn,
              ?_, ?_, ?_⟩
            · subst hi; simp
            · subst hi; simp [recentlyCheckedThreshold, uintSize]
            · intro h5
              rw [← hmod h5]
              subst hi
              simp [recentlyCheckedThreshold, uintSize]

/-- A run of `freshness_flags` with the default configuration: `db2:3306`, checked at second
100 and read at second 130, is up to date and recently checked. -/
theorem freshness_flags_witness :
    (readInstanceRow NewConfiguration (selectRow 130 rowDb2)).IsUpToDate = true ∧
    (readInstanceRow NewConfiguration (selectRow 130 rowDb2)).IsRecentlyChecked = true :=
  ⟨((freshness_flags NewConfiguration).1 (selectRow 130 rowDb2)).1.mpr (by decide),
   ((freshness_flags NewConfiguration).1 (selectRow 130 rowDb2)).2.2 (by decide) |>.mpr
     (by decide)⟩

/-! ## C7, C8, C9: `ReadProblemInstances` -/

set_option linter.unnecessarySeqFocus false in
theorem problemWhere_true_iff (cfg : Configuration) (now : Nat) (r : Row) :
    problemWhere cfg now r = some true ↔
      ((∃ ls : Nat, r.last_seen = some ls ∧ ls < r.last_checked) ∨
       (cfg.InstancePollSeconds : Int) < timestampdiff r.last_checked now ∨
       r.slave_sql_running = false ∨ r.slave_io_running = false ∨
       (∃ l : Int, r.seconds_behind_master = some l ∧ 10 < l)) := by
  unfold problemWhere
  rcases hls : r.last_seen with _ | ls <;> rcases hl : r.seconds_behind_master with _ | l <;>
    rcases hsql : r.slave_sql_running with _ | _ <;>
    rcases hio : r.slave_io_running with _ | _ <;>
    by_cases h1 : timestampdiff r.last_checked now ≤ (cfg.InstancePollSeconds : Int) <;>
    simp [sqlOr, sqlLt, sqlLe, sqlNot, ifnull, h1] <;>
    first
      | omega
      | (by_cases h2 : ls < r.last_checked <;> by_cases h3 : (10 : Int) < l <;> simp [h2, h3] <;> omega)
      | (by_cases h2 : ls < r.last_checked <;> simp [h2] <;> omega)
      | (by_cases h3 : (10 : Int) < l <;> simp [h3] <;> omega)

theorem mem_ReadProblemInstances (cfg : Configuration) (now : Nat) (rows : List Row)
    (i : Instance) :
    i ∈ (ReadProblemInstances ExecFaults.none cfg now rows).1 ↔
      ∃ r ∈ rows, problemWhere cfg now r = some true ∧ readInstanceRow cfg (selectRow now r) = i := by
  simp [ReadProblemInstances, ExecFaults.none, List.mem_insertionSort, and_assoc]

theorem key_readInstanceRow (cfg : Configuration) (now : Nat) (r : Row) :
    (readInstanceRow cfg (selectRow now r)).Key = r.key := rfl

theorem key_mem_ReadProblemInstances (cfg : Configuration) (now : Nat) (rows : List Row)
    (r : Row) (hk : (rows.map Row.key).Nodup) (hr : r ∈ rows) :
    (∃ i ∈ (ReadProblemInstances ExecFaults.none cfg now rows).1, i.Key = r.key) ↔
      problemWhere cfg now r = some true := by
  constructor
  · rintro ⟨i, hi, hkey⟩
    obtain ⟨r', hr', hw, rfl⟩ := (mem_ReadProblemInstances cfg now rows i).1 hi
    rw [key_readInstanceRow] at hkey
    have : r' = r := List.inj_on_of_nodup_map hk hr' hr hkey
    rw [← this]; exact hw
  · intro hw
    exact ⟨_, (mem_ReadProblemInstances cfg now rows _).2 ⟨r, hr, hw, rfl⟩, rfl⟩

/-- A configuration that raises `ReasonableReplicationLagSeconds` to 20. -/
def cfgLag20 : Configuration := { NewConfiguration with ReasonableReplicationLagSeconds := 20 }

/-- A configuration that lowers `ReasonableReplicationLagSeconds` to 5. -/
def cfgLag5 : Configuration := { NewConfiguration with ReasonableReplicationLagSeconds := 5 }

/-- C7 at its failing inputs: `db2:3306` is up to date, seen at its last check, with both
threads running. With the configured bound at 20 and a lag of 15 seconds the statement lists
it; with the configured bound at 5 and a lag of 7 seconds the statement does not list it. The
lag is compared with the literal 10, not with `ReasonableReplicationLagSeconds`. -/
theorem ReadProblemInstances_lag_literal :
    (ReadProblemInstances ExecFaults.none cfgLag20 100
      [{ rowDb2 with seconds_behind_master := some 15 }]).1.map Instance.Key = [db2] ∧
    (ReadProblemInstances ExecFaults.none cfgLag5 100
      [{ rowDb2 with seconds_behind_master := some 7 }]).1 = [] ∧
    (readInstanceRow cfgLag20 (selectRow 100 rowDb2)).IsRecentlyChecked = true ∧
    (readInstanceRow cfgLag5 (selectRow 100 rowDb2)).IsRecentlyChecked = true := by
  decide

/-- C8, as stated, fails: with the default `InstancePollSeconds = 60`, `db2:3306` checked and
seen 100 seconds ago, both threads running and no lag, is listed by `ReadProblemInstances`
although its `IsRecentlyChecked` flag is true (100 ≤ 300). -/
theorem ReadProblemInstances_lists_recently_checked :
    (ReadProblemInstances ExecFaults.none NewConfiguration 200 [rowDb2]).1.map
      (fun i => (i.Key, i.IsRecentlyChecked, i.IsUpToDate)) = [(db2, true, false)] ∧
    (selectRow 200 rowDb2).seconds_since_last_checked = 100 ∧
    rowDb2.slave_sql_running = true ∧ rowDb2.slave_io_running = true ∧
    rowDb2.seconds_behind_master = some 0 ∧ rowDb2.last_seen = some rowDb2.last_checked := by
  decide

/-- C8, amended: an instance with both replication threads running, lag within the bound (the
literal 10 of the statement and the configured one) and `lastSeen ≥ lastChecked` is returned
by `ReadProblemInstances` if and only if its `secondsSinceLastChecked` exceeds
`InstancePollSeconds`, that is, if and only if the `IsUpToDate` flag derived for it is
false. -/
theorem ReadProblemInstances_iff_outdated (cfg : Configuration) (now : Nat) (rows : List Row)
    (r : Row) (hk : (rows.map Row.key).Nodup) (hr : r ∈ rows)
    (hsql : r.slave_sql_running = true) (hio : r.slave_io_running = true)
    (hlag : ∀ l, r.seconds_behind_master = some l →
      l ≤ 10 ∧ l ≤ cfg.ReasonableReplicationLagSeconds)
    (hseen : ∃ ls, r.last_seen = some ls ∧ r.last_checked ≤ ls) :
    ((∃ i ∈ (ReadProblemInstances ExecFaults.none cfg now rows).1, i.Key = r.key) ↔
      (cfg.InstancePollSeconds : Int) < timestampdiff r.last_checked now) ∧
    ((∃ i ∈ (ReadProblemInstances ExecFaults.none cfg now rows).1, i.Key = r.key) ↔
      (readInstanceRow cfg (selectRow now r)).IsUpToDate = false) := by
  have hmain : (∃ i ∈ (ReadProblemInstances ExecFaults.none cfg now rows).1, i.Key = r.key) ↔
      (cfg.InstancePollSeconds : Int) < timestampdiff r.last_checked now := by
    rw [key_mem_ReadProblemInstances cfg now rows r hk hr, problemWhere_true_iff]
    constructor
    · rintro (⟨ls, h1, h2⟩ | h | h | h | ⟨l, h1, h2⟩)
      · obtain ⟨ls', h3, h4⟩ := hseen
        rw [h1] at h3
        cases h3
        omega
      · exact h
      · rw [hsql] at h; cases h
      · rw [hio] at h; cases h
      · have := (hlag l h1).1
        omega
    · intro h
      exact Or.inr (Or.inl h)
  refine ⟨hmain, hmain.trans ?_⟩
  simp only [readInstanceRow, selectRow, decide_eq_false_iff_not, not_le]
  omega

/-- A run of `ReadProblemInstances_iff_outdated`: `db2:3306`, checked at second 100, at second 200. -/
theorem ReadProblemInstances_iff_outdated_witness :
    ((∃ i ∈ (ReadProblemInstances ExecFaults.none NewConfiguration 200 [rowDb2]).1,
        i.Key = rowDb2.key) ↔
      (NewConfiguration.InstancePollSeconds : Int) < timestampdiff rowDb2.last_checked 200) ∧
    ((∃ i ∈ (ReadProblemInstances ExecFaults.none NewConfiguration 200 [rowDb2]).1,
        i.Key = rowDb2.key) ↔
      (readInstanceRow NewConfiguration (selectRow 200 rowDb2)).IsUpToDate = false) :=
  ReadProblemInstances_iff_outdated NewConfiguration 200 [rowDb2] rowDb2 (by decide)
    (List.mem_singleton.2 rfl) rfl rfl
    (by intro l h; cases h; decide)
    ⟨100, rfl, by decide⟩

/-- C9: every row recorded with `slave_sql_running = false` or `slave_io_running = false` is
returned by `ReadProblemInstances`, whatever its other columns hold. -/
theorem ReadProblemInstances_stopped_thread (cfg : Configuration) (now : Nat)
    (rows : List Row) (r : Row) (hr : r ∈ rows)
    (h : r.slave_sql_running = false ∨ r.slave_io_running = false) :
    (ReadProblemInstances ExecFaults.none cfg now rows).2 = none ∧
    readInstanceRow cfg (selectRow now r) ∈ (ReadProblemInstances ExecFaults.none cfg now rows).1 ∧
    ∃ i ∈ (ReadProblemInstances ExecFaults.none cfg now rows).1, i.Key = r.key := by
  have hw : problemWhere cfg now r = some true := by
    rw [problemWhere_true_iff]
    rcases h with h | h
    · exact Or.inr (Or.inr (Or.inl h))
    · exact Or.inr (Or.inr (Or.inr (Or.inl h)))
  have hm := (mem_ReadProblemInstances cfg now rows _).2 ⟨r, hr, hw, rfl⟩
  exact ⟨rfl, hm, _, hm, rfl⟩

/-- A master `db1:3306`, recorded without replication threads. -/
def rowMaster : Row :=
  { instanceRow (some 100) 100 { NewInstance with Key := db1, ServerID := 1 } with
    last_seen := some 100 }

/-- A run of `ReadProblemInstances_stopped_thread`: the master `db1:3306` is listed. -/
theorem ReadProblemInstances_stopped_thread_witness :
    (ReadProblemInstances ExecFaults.none NewConfiguration 100 [rowDb2, rowMaster]).2 = none ∧
    readInstanceRow NewConfiguration (selectRow 100 rowMaster) ∈
      (ReadProblemInstances ExecFaults.none NewConfiguration 100 [rowDb2, rowMaster]).1 ∧
    ∃ i ∈ (ReadProblemInstances ExecFaults.none NewConfiguration 100 [rowDb2, rowMaster]).1,
      i.Key = rowMaster.key :=
  ReadProblemInstances_stopped_thread NewConfiguration 100 [rowDb2, rowMaster] rowMaster
    (by simp) (Or.inl rfl)

/-! ## C10: quotes in cluster names and search strings -/

/-- C10: for a cluster name holding a single-quote `ReadClusterInstances` returns an error and
an empty list and sends no statement to the backend, and so does `SearchInstances` for a
search string holding a single-quote. -/
theorem quote_rejected (b : TextBackend) (cfg : Configuration) (now : Nat) (s : String)
    (h : Char.ofNat 39 ∈ s.data) :
    ((ReadClusterInstances b cfg now s).err ≠ none ∧
      (ReadClusterInstances b cfg now s).instances = [] ∧
      (ReadClusterInstances b cfg now s).sent = []) ∧
    ((SearchInstances b cfg now s).err ≠ none ∧
      (SearchInstances b cfg now s).instances = [] ∧
      (SearchInstances b cfg now s).sent = []) := by
  have hq : hasQuote s = true := by
    simpa [hasQuote] using h
  unfold ReadClusterInstances SearchInstances
  cases b.openErr <;> simp [hq]

/-- A backend that answers every statement with the row of `db2:3306`. -/
def backendDb2 : TextBackend := ⟨none, fun _ => .ok [rowDb2]⟩

/-- A run of `quote_rejected` on the text `x' or '1'='1`. -/
theorem quote_rejected_witness :
    ((ReadClusterInstances backendDb2 NewConfiguration 100 "x\x27 or \x271\x27=\x271").err ≠ none ∧
      (ReadClusterInstances backendDb2 NewConfiguration 100 "x\x27 or \x271\x27=\x271").instances = [] ∧
      (ReadClusterInstances backendDb2 NewConfiguration 100 "x\x27 or \x271\x27=\x271").sent = []) ∧
    ((SearchInstances backendDb2 NewConfiguration 100 "x\x27 or \x271\x27=\x271").err ≠ none ∧
      (SearchInstances backendDb2 NewConfiguration 100 "x\x27 or \x271\x27=\x271").instances = [] ∧
      (SearchInstances backendDb2 NewConfiguration 100 "x\x27 or \x271\x27=\x271").sent = []) :=
  quote_rejected backendDb2 NewConfiguration 100 "x\x27 or \x271\x27=\x271" (by decide)

/-! ## C3, C4: what a probe leaves in the catalog -/

/-- The fields that the first query of a probe sets, together with the key. -/
def Instance.identity (i : Instance) : InstanceKey × Globals :=
  (i.Key, ⟨i.ServerID, i.Version, i.Binlog_format, i.LogBinEnabled, i.LogSlaveUpdatesEnabled⟩)

/-- Timestamp `a` is not later than timestamp `b`; NULL is earlier than every time. -/
def notAfter (a b : Option Nat) : Prop :=
  match a, b with
  | none, _ => True
  | some _, none => False
  | some x, some y => x ≤ y

theorem notAfter_refl (a : Option Nat) : notAfter a a := by
  cases a <;> simp [notAfter]

theorem identity_AddSlaveKey (i : Instance) (k : InstanceKey) :
    (i.AddSlaveKey k).identity = i.identity := by
  unfold Instance.AddSlaveKey
  split <;> rfl

theorem identity_applySlaveStatus (cfg : Configuration) (i : Instance) (m : SlaveStatus) :
    (applySlaveStatus cfg i m).identity = i.identity := by
  unfold applySlaveStatus
  split <;> rfl

theorem identity_foldl_applySlaveStatus (cfg : Configuration) (ss : List SlaveStatus)
    (i : Instance) : (ss.foldl (applySlaveStatus cfg) i).identity = i.identity := by
  induction ss generalizing i with
  | nil => rfl
  | cons m t ih => rw [List.foldl_cons, ih, identity_applySlaveStatus]

theorem identity_foldl_masterStatus (ms : List BinlogCoordinates) (i : Instance) :
    (ms.foldl (fun (x : Instance) c => { x with SelfBinlogCoordinates := c }) i).identity =
      i.identity := by
  induction ms generalizing i with
  | nil => rfl
  | cons m t ih => rw [List.foldl_cons, ih]; rfl

theorem identity_addSlaveHosts (hs : List (Except Error InstanceKey)) (i : Instance)
    (found : Bool) : (addSlaveHosts hs i found).1.identity = i.identity := by
  induction hs generalizing i found with
  | nil => rfl
  | cons h t ih =>
    cases h with
    | error e => rfl
    | ok k => simp only [addSlaveHosts]; rw [ih, identity_AddSlaveKey]

theorem identity_addProcesslist (ps : List (Except Error String)) (i : Instance) :
    (addProcesslist ps i).1.identity = i.identity := by
  induction ps generalizing i with
  | nil => rfl
  | cons h t ih =>
    cases h with
    | error e => rfl
    | ok c => simp only [addProcesslist]; rw [ih, identity_AddSlaveKey]

theorem identity_probeTail (cfg : Configuration) (t : Topology) (f : ProbeFaults)
    (rows : List Row) (i : Instance) : (probeTail cfg t f rows i).1.identity = i.identity := by
  unfold probeTail
  cases hm : t.masterStatus with
  | error e => rfl
  | ok ms =>
    simp only
    have h1 := identity_foldl_masterStatus ms i
    generalize ms.foldl (fun (x : Instance) c => { x with SelfBinlogCoordinates := c }) i = j at h1
    have h2 : ∀ v : Instance × Bool × Option Error, v.1.identity = i.identity →
        (match v with
          | (i, _, some e) => (i, some e)
          | (i, foundBySlaveHosts, none) =>
            match (if (!foundBySlaveHosts) = true then
                match t.processlist with
                | .error e => (i, some e)
                | .ok ps => addProcesslist ps i
              else (i, none) : Instance × Option Error) with
            | (i, some e) => (i, some e)
            | (i, none) =>
              match ReadClusterNameByMaster f.cluster rows i.Key i.MasterKey with
              | (name, err) => ({ i with ClusterName := name }, err)).1.identity = i.identity := by
      rintro ⟨a, b, c⟩ hv
      cases c with
      | some e => exact hv
      | none =>
        simp only
        have h3 : (if (!b) = true then
                match t.processlist with
                | .error e => (a, some e)
                | .ok ps => addProcesslist ps a
              else (a, none) : Instance × Option Error).1.identity = i.identity := by
          split
          · cases t.processlist with
            | error e => exact hv
            | ok ps => simp only; rw [identity_addProcesslist]; exact hv
          · exact hv
        generalize (if (!b) = true then
                match t.processlist with
                | .error e => (a, some e)
                | .ok ps => addProcesslist ps a
              else (a, none) : Instance × Option Error) = w at h3
        rcases w with ⟨w1, _ | e⟩
        · exact h3
        · exact h3
    apply h2
    split
    · cases t.slaveHosts with
      | error e => exact h1
      | ok hs => simp only; rw [identity_addSlaveHosts]; exact h1
    · exact h1

theorem probeSteps_found (cfg : Configuration) (t : Topology) (f : ProbeFaults)
    (rows : List Row) (k : InstanceKey) (g : Globals)
    (ho : t.openErr = none) (hg : t.globals = .ok g) :
    (probeSteps cfg t f rows k).2.1 = true ∧ (probeSteps cfg t f rows k).1.identity = (k, g) := by
  unfold probeSteps
  simp only [ho, hg]
  cases t.slaveStatus with
  | error e => exact ⟨rfl, rfl⟩
  | ok ss =>
    simp only
    split
    · cases t.lagQuery with
      | error e =>
        refine ⟨rfl, ?_⟩
        simp only
        rw [identity_foldl_applySlaveStatus]; rfl
      | ok lag =>
        refine ⟨rfl, ?_⟩
        simp only
        rw [identity_probeTail]
        exact (identity_foldl_applySlaveStatus cfg ss _).trans rfl
    · refine ⟨rfl, ?_⟩
      simp only
      rw [identity_probeTail, identity_foldl_applySlaveStatus]; rfl

theorem probeSteps_not_found (cfg : Configuration) (t : Topology) (f : ProbeFaults)
    (rows : List Row) (k : InstanceKey) (h : (probeSteps cfg t f rows k).2.1 = false) :
    (probeSteps cfg t f rows k).2.2 ≠ none ∧
      (t.openErr ≠ none ∨ ∃ e, t.globals = .error e) := by
  cases ho : t.openErr with
  | some e => simp [probeSteps, ho]
  | none =>
    cases hg : t.globals with
    | error e => simp [probeSteps, ho, hg]
    | ok g =>
      have := (probeSteps_found cfg t f rows k g ho hg).1
      rw [h] at this
      cases this

theorem ReadTopologyInstance_eq (cfg : Configuration) (t : Topology) (f : ProbeFaults)
    (dflt : Option Nat) (now : Nat) (rows : List Row) (k : InstanceKey) :
    ReadTopologyInstance cfg t f dflt now rows k =
      ((probeSteps cfg t f rows k).1, (probeSteps cfg t f rows k).2.2,
        if (probeSteps cfg t f rows k).2.1 = true then
          (WriteInstance f.write dflt now rows (probeSteps cfg t f rows k).1
            (probeSteps cfg t f rows k).2.2).2
        else (UpdateInstanceLastChecked f.lastChecked now rows k).2) := by
  unfold ReadTopologyInstance
  rcases probeSteps cfg t f rows k with ⟨i, b, e⟩
  cases b <;> simp

/-- A probe of `db2:3306` whose `show slave status` query fails after the first query
answered. -/
def topologySlaveStatusFails : Topology :=
  { openErr := none,
    globals := .ok ⟨2, "5.6", "ROW", true, true⟩,
    slaveStatus := .error "boom",
    lagQuery := .ok none,
    masterStatus := .ok [],
    slaveHosts := .ok [],
    processlist := .ok [] }

/-- A probe of `db2:3306` all of whose queries answer. -/
def topologyHealthy : Topology :=
  { topologySlaveStatusFails with
    slaveStatus := .ok [⟨"Yes", "Yes", "bin.000001", 500, "bin.000001", 500, db1, some 0⟩] }

/-- C3: for an instance present in the catalog, with the backend answering, a probe that
fails at any step leaves its row with `last_checked = now` and a `last_seen` not later than
before, and a probe that succeeds leaves it with `last_checked = now` and `last_seen = now`.
The column default of `last_seen` is taken not to be later than the stored value (NULL
never is). -/
theorem ReadTopologyInstance_timestamps (cfg : Configuration) (t : Topology) (f : ProbeFaults)
    (dflt : Option Nat) (now : Nat) (rows : List Row) (k : InstanceKey) (row : Row)
    (hrow : findRow rows k = some row) (hd : notAfter dflt row.last_seen)
    (hw : f.write = WriteFaults.none) (hl : f.lastChecked = ExecFaults.none) :
    ∃ row', findRow (ReadTopologyInstance cfg t f dflt now rows k).2.2 k = some row' ∧
      row'.last_checked = now ∧
      ((ReadTopologyInstance cfg t f dflt now rows k).2.1 ≠ none →
        notAfter row'.last_seen row.last_seen) ∧
      ((ReadTopologyInstance cfg t f dflt now rows k).2.1 = none →
        row'.last_seen = some now) := by
  rw [ReadTopologyInstance_eq]
  simp only
  cases hb : (probeSteps cfg t f rows k).2.1 with
  | false =>
    have hne := (probeSteps_not_found cfg t f rows k hb).1
    refine ⟨{ row with last_checked := now }, ?_, rfl, fun _ => notAfter_refl _,
      fun h => absurd h hne⟩
    simp [UpdateInstanceLastChecked, hl, ExecFaults.none, findRow_updateLastChecked, hrow]
  | true =>
    have hkey : (probeSteps cfg t f rows k).1.Key = k := by
      cases ho : t.openErr with
      | some e => simp [probeSteps, ho] at hb
      | none =>
        cases hg : t.globals with
        | error e => simp [probeSteps, ho, hg] at hb
        | ok g =>
          have := (probeSteps_found cfg t f rows k g ho hg).2
          exact congrArg Prod.fst this
    simp only [if_true]
    cases he : (probeSteps cfg t f rows k).2.2 with
    | some e =>
      refine ⟨instanceRow dflt now (probeSteps cfg t f rows k).1, ?_, rfl, fun _ => hd,
        fun h => by cases h⟩
      simp only [WriteInstance, hw, WriteFaults.none]
      have hfind := findRow_instanceRow rows dflt now (probeSteps cfg t f rows k).1
      rw [hkey] at hfind
      exact hfind
    | none =>
      refine ⟨{ instanceRow dflt now (probeSteps cfg t f rows k).1 with last_seen := some now },
        ?_, rfl, fun h => absurd rfl h, fun _ => rfl⟩
      simp only [WriteInstance, hw, WriteFaults.none]
      have hfind := findRow_updateLastSeen
        (replaceInto rows (instanceRow dflt now (probeSteps cfg t f rows k).1))
        (probeSteps cfg t f rows k).1.Key now
      rw [findRow_instanceRow, hkey] at hfind
      rw [hkey, hfind]
      rfl

/-- A run of `ReadTopologyInstance_timestamps`: a probe of `db2:3306` at second 200 whose
second query fails. -/
theorem ReadTopologyInstance_timestamps_witness :
    ∃ row', findRow (ReadTopologyInstance NewConfiguration topologySlaveStatusFails
        ProbeFaults.none none 200 [rowDb2] db2).2.2 db2 = some row' ∧
      row'.last_checked = 200 ∧
      ((ReadTopologyInstance NewConfiguration topologySlaveStatusFails
        ProbeFaults.none none 200 [rowDb2] db2).2.1 ≠ none →
        notAfter row'.last_seen rowDb2.last_seen) ∧
      ((ReadTopologyInstance NewConfiguration topologySlaveStatusFails
        ProbeFaults.none none 200 [rowDb2] db2).2.1 = none →
        row'.last_seen = some 200) :=
  ReadTopologyInstance_timestamps NewConfiguration topologySlaveStatusFails ProbeFaults.none
    none 200 [rowDb2] db2 rowDb2 (by decide) trivial rfl rfl

/-- C4, as stated, fails: the row of `db2:3306` holds version 5.5, a running SQL thread and
the master `db1`; a probe whose first query answers (version 5.6) and whose `show slave
status` fails returns the error, and the row it leaves holds version 5.6, a stopped SQL
thread, an empty master host and a NULL `last_seen`. -/
theorem ReadTopologyInstance_writes_partial :
    (ReadTopologyInstance NewConfiguration topologySlaveStatusFails ProbeFaults.none none 200
      [rowDb2] db2).2.1 = some "boom" ∧
    (findRow [rowDb2] db2).map
        (fun r => (r.version, r.slave_sql_running, r.master_host, r.last_seen)) =
      some ("5.5", true, "db1", some 100) ∧
    (findRow (ReadTopologyInstance NewConfiguration topologySlaveStatusFails ProbeFaults.none
      none 200 [rowDb2] db2).2.2 db2).map
        (fun r => (r.version, r.slave_sql_running, r.master_host, r.last_seen)) =
      some ("5.6", false, "", none) := by
  decide

/-- C4, amended: if a probe query after the first one fails, `ReadTopologyInstance` persists
the partially populated `Instance` through `WriteInstance` with the error: the row of the
instance is replaced by the values gathered up to the failure (the answers of the first query
among them), with `last_checked = now` and `last_seen` at the column default. Only when the
connection or the first query fails are the columns other than `last_checked` the same after
the probe as before it. -/
theorem ReadTopologyInstance_persistence (cfg : Configuration) (t : Topology) (f : ProbeFaults)
    (dflt : Option Nat) (now : Nat) (rows : List Row) (k : InstanceKey)
    (hw : f.write = WriteFaults.none) (hl : f.lastChecked = ExecFaults.none) :
    (∀ g e, t.openErr = none → t.globals = .ok g →
      (ReadTopologyInstance cfg t f dflt now rows k).2.1 = some e →
      (ReadTopologyInstance cfg t f dflt now rows k).2.2 =
          replaceInto rows
            (instanceRow dflt now (ReadTopologyInstance cfg t f dflt now rows k).1) ∧
        findRow (ReadTopologyInstance cfg t f dflt now rows k).2.2 k =
          some (instanceRow dflt now (ReadTopologyInstance cfg t f dflt now rows k).1) ∧
        (ReadTopologyInstance cfg t f dflt now rows k).1.identity = (k, g)) ∧
    ((t.openErr ≠ none ∨ ∃ e, t.globals = .error e) →
      (ReadTopologyInstance cfg t f dflt now rows k).2.1 ≠ none ∧
      (ReadTopologyInstance cfg t f dflt now rows k).2.2 = updateLastChecked rows k now) := by
  rw [ReadTopologyInstance_eq]
  simp only
  constructor
  · intro g e ho hg he
    obtain ⟨hb, hid⟩ := probeSteps_found cfg t f rows k g ho hg
    have hkey : (probeSteps cfg t f rows k).1.Key = k := congrArg Prod.fst hid
    have hrows : (WriteInstance f.write dflt now rows (probeSteps cfg t f rows k).1
        (probeSteps cfg t f rows k).2.2).2 =
        replaceInto rows (instanceRow dflt now (probeSteps cfg t f rows k).1) := by
      rw [he]
      simp [WriteInstance, hw, WriteFaults.none]
    rw [hb, if_pos rfl, hrows]
    refine ⟨rfl, ?_, hid⟩
    have hfind := findRow_instanceRow rows dflt now (probeSteps cfg t f rows k).1
    rw [hkey] at hfind
    exact hfind
  · intro h
    have hb : (probeSteps cfg t f rows k).2.1 = false := by
      rcases h with h | ⟨e, h⟩
      · cases ho : t.openErr with
        | none => exact absurd ho h
        | some e => simp [probeSteps, ho]
      · cases ho : t.openErr with
        | none => simp [probeSteps, ho, h]
        | some e => simp [probeSteps, ho]
    refine ⟨(probeSteps_not_found cfg t f rows k hb).1, ?_⟩
    rw [hb]
    simp [UpdateInstanceLastChecked, hl, ExecFaults.none]

/-- A run of `ReadTopologyInstance_persistence`: the probe of `db2:3306` whose second query
fails replaces the row by the partially populated instance. -/
theorem ReadTopologyInstance_persistence_witness :
    (ReadTopologyInstance NewConfiguration topologySlaveStatusFails ProbeFaults.none none 200
        [rowDb2] db2).2.2 =
      replaceInto [rowDb2] (instanceRow none 200 (ReadTopologyInstance NewConfiguration
        topologySlaveStatusFails ProbeFaults.none none 200 [rowDb2] db2).1) ∧
    findRow (ReadTopologyInstance NewConfiguration topologySlaveStatusFails ProbeFaults.none
        none 200 [rowDb2] db2).2.2 db2 =
      some (instanceRow none 200 (ReadTopologyInstance NewConfiguration
        topologySlaveStatusFails ProbeFaults.none none 200 [rowDb2] db2).1) ∧
    (ReadTopologyInstance NewConfiguration topologySlaveStatusFails ProbeFaults.none none 200
        [rowDb2] db2).1.identity = (db2, ⟨2, "5.6", "ROW", true, true⟩) :=
  (ReadTopologyInstance_persistence NewConfiguration topologySlaveStatusFails ProbeFaults.none
    none 200 [rowDb2] db2 rfl rfl).1 ⟨2, "5.6", "ROW", true, true⟩ "boom" rfl rfl (by decide)

/-! ## C1: `StopSlaveNicely` -/

theorem pollSQLThread_some (ps : List (Instance × Option Error)) (i : Instance)
    (err : Option Error) (rest : List (Instance × Option Error))
    (h : pollSQLThread ps = some (i, err, rest)) :
    ∃ polls, ps = polls ++ (i, err) :: rest ∧
      (∀ p ∈ polls, p.2 = none ∧ p.1.SQLThreadUpToDate = false) ∧
      (err = none → i.SQLThreadUpToDate = true) := by
  induction ps with
  | nil => simp [pollSQLThread] at h
  | cons p t ih =>
    rcases p with ⟨j, _ | e⟩
    · simp only [pollSQLThread] at h
      by_cases hj : j.SQLThreadUpToDate = true
      · simp only [hj, if_true, Option.some.injEq, Prod.mk.injEq] at h
        obtain ⟨rfl, rfl, rfl⟩ := h
        exact ⟨[], rfl, by simp, fun _ => hj⟩
      · simp only [hj, if_false] at h
        obtain ⟨polls, hp, hall, hlast⟩ := ih h
        refine ⟨(j, none) :: polls, by simp [hp], ?_, hlast⟩
        intro q hq
        rcases List.mem_cons.1 hq with rfl | hq
        · exact ⟨rfl, by simpa using hj⟩
        · exact hall q hq
    · simp only [pollSQLThread, Option.some.injEq, Prod.mk.injEq] at h
      obtain ⟨rfl, rfl, rfl⟩ := h
      exact ⟨[], rfl, by simp, fun h => by cases h⟩

/-- The probe and command results of a run of `StopSlaveNicely` on `db2:3306` in which the
replication threads are found running again at the final re-probe. -/
def scriptRestarted : Script :=
  { probes := [(replicaLagging, none), (replicaLagging, none), (replicaCaughtUp, none),
               (replicaLagging, none)],
    execs := [none, none],
    issued := [] }

/-- C1, as stated, fails: with these probe results `StopSlaveNicely` returns without error,
and the instance it returns, the final re-probe, has both threads running and
`ExecBinlogCoordinates` different from `ReadBinlogCoordinates`. The final re-probe is returned
as it is. -/
theorem StopSlaveNicely_returns_final_probe_unchecked :
    (StopSlaveNicely db2 scriptRestarted).map
        (fun r => (r.2.1, r.1.Slave_IO_Running, r.1.Slave_SQL_Running,
          r.1.ExecBinlogCoordinates.Equals r.1.ReadBinlogCoordinates)) =
      some (none, true, true, false) ∧
    replicaLagging.IsSlave = true := by
  decide

/-- C1, amended: if `StopSlaveNicely` returns without error, then the first probe found a
replica, the polling loop ended at a probe with `ExecBinlogCoordinates` equal to
`ReadBinlogCoordinates` after probes that all had them different, `stop slave io_thread` and
then `stop slave` were issued, the latter without error, and the instance returned is the
result of the final re-probe, whose thread flags and coordinates the code does not check. -/
theorem StopSlaveNicely_success (k : InstanceKey) (s s' : Script) (i : Instance)
    (h : StopSlaveNicely k s = some (i, none, s')) :
    ∃ (first last : Instance) (polls : List (Instance × Option Error)) (ioResult : Option Error),
      s.probes = (first, none) :: (polls ++ (last, none) :: (i, none) :: s'.probes) ∧
      first.IsSlave = true ∧
      (∀ p ∈ polls, p.2 = none ∧ p.1.SQLThreadUpToDate = false) ∧
      last.SQLThreadUpToDate = true ∧
      s.execs = ioResult :: none :: s'.execs ∧
      s'.issued = s.issued ++ ["stop slave io_thread", "stop slave"] := by
  rcases s with ⟨probes, execs, issued⟩
  unfold StopSlaveNicely at h
  rcases probes with _ | ⟨⟨first, _ | e⟩, probes⟩
  · simp [Script.probe] at h
  swap
  · simp [Script.probe] at h
  simp only [Script.probe] at h
  by_cases hslave : first.IsSlave = true
  swap
  · simp [hslave] at h
  simp only [hslave, Bool.not_true, Bool.false_eq_true, if_false] at h
  rcases execs with _ | ⟨ioResult, execs⟩
  · simp [Script.exec] at h
  simp only [Script.exec] at h
  cases hp : pollSQLThread probes with
  | none => simp [hp] at h
  | some v =>
    rcases v with ⟨last, _ | e, rest⟩
    swap
    · simp [hp] at h
    simp only [hp] at h
    obtain ⟨polls, hps, hall, hlast⟩ := pollSQLThread_some probes last none rest hp
    rcases execs with _ | ⟨_ | e, execs⟩
    · simp at h
    swap
    · simp at h
    simp only at h
    rcases rest with _ | ⟨⟨j, err⟩, rest⟩
    · simp at h
    simp only [Option.some.injEq, Prod.mk.injEq] at h
    obtain ⟨rfl, rfl, rfl⟩ := h
    exact ⟨first, last, polls, ioResult, by simp [hps], hslave, hall, hlast rfl, rfl, by simp⟩

/-- A run of `StopSlaveNicely_success` on the probe results of `scriptRestarted`. -/
theorem StopSlaveNicely_success_witness :
    ∃ (first last : Instance) (polls : List (Instance × Option Error)) (ioResult : Option Error),
      scriptRestarted.probes =
        (first, none) :: (polls ++ (last, none) :: (replicaLagging, none) :: []) ∧
      first.IsSlave = true ∧
      (∀ p ∈ polls, p.2 = none ∧ p.1.SQLThreadUpToDate = false) ∧
      last.SQLThreadUpToDate = true ∧
      scriptRestarted.execs = ioResult :: none :: [] ∧
      ["stop slave io_thread", "stop slave"] =
        scriptRestarted.issued ++ ["stop slave io_thread", "stop slave"] :=
  StopSlaveNicely_success db2 scriptRestarted ⟨[], [], ["stop slave io_thread", "stop slave"]⟩
    replicaLagging (by decide)

/-! ## C2: `StartSlaveUntilMasterCoordinates` -/

theorem SmallerThan_asymm (a b : BinlogCoordinates) (h : a.SmallerThan b = true) :
    b.SmallerThan a = false ∧ b.Equals a = false := by
  simp only [BinlogCoordinates.SmallerThan, BinlogCoordinates.Equals, Bool.or_eq_true,
    Bool.and_eq_true, decide_eq_true_eq] at h
  simp only [BinlogCoordinates.SmallerThan, BinlogCoordinates.Equals, Bool.or_eq_false_iff,
    Bool.and_eq_false_iff, decide_eq_false_iff_not]
  rcases h with h | ⟨h1, h2⟩
  · have hne : b.LogFile ≠ a.LogFile := by
      intro he
      rw [he] at h
      exact lt_irrefl _ h
    exact ⟨⟨lt_asymm h, Or.inl hne⟩, Or.inl hne⟩
  · refine ⟨⟨?_, Or.inr (by omega)⟩, Or.inr (by omega)⟩
    rw [h1]
    exact lt_irrefl _

theorem Equals_not_SmallerThan (a b : BinlogCoordinates) (h : a.Equals b = true) :
    a.SmallerThan b = false := by
  simp only [BinlogCoordinates.Equals, Bool.and_eq_true, decide_eq_true_eq] at h
  simp only [BinlogCoordinates.SmallerThan, Bool.or_eq_false_iff, Bool.and_eq_false_iff,
    decide_eq_false_iff_not]
  refine ⟨?_, Or.inr (by omega)⟩
  rw [h.1]
  exact lt_irrefl _

theorem pollUntilCoordinates_skip (k : InstanceKey) (target : BinlogCoordinates)
    (smaller rest : List (Instance × Option Error))
    (hs : ∀ q ∈ smaller, q.2 = none ∧ q.1.ExecBinlogCoordinates.SmallerThan target = true) :
    pollUntilCoordinates k target (smaller ++ rest) = pollUntilCoordinates k target rest := by
  induction smaller with
  | nil => rfl
  | cons q t ih =>
    rcases q with ⟨j, e⟩
    obtain ⟨he, hj⟩ := hs (j, e) (List.mem_cons_self _ _)
    simp only at he hj
    subst he
    simp only [List.cons_append, pollUntilCoordinates, hj, if_true]
    exact ih (fun q hq => hs q (List.mem_cons_of_mem _ hq))

/-- C2: on a stopped replica, after `start slave until` was issued, the loop polls on while
the re-probed `ExecBinlogCoordinates` are smaller than the target (and is still polling when
the probe results run out); at the first re-probe with coordinates equal to the target it
hands over to `StopSlave`, and returns what the re-probe after a successful `stop slave`
returns; at the first re-probe with coordinates greater than the target it returns the
overshoot error, no `stop slave` having been issued. -/
theorem StartSlaveUntilMasterCoordinates_polling (k : InstanceKey) (target : BinlogCoordinates)
    (i0 i : Instance) (smaller rest : List (Instance × Option Error))
    (execs : List (Option Error)) (issued : List String)
    (h0 : i0.IsSlave = true) (h1 : i0.SlaveRunning = false)
    (hs : ∀ q ∈ smaller, q.2 = none ∧ q.1.ExecBinlogCoordinates.SmallerThan target = true) :
    StartSlaveUntilMasterCoordinates k target
        ⟨(i0, none) :: smaller, none :: execs, issued⟩ = none ∧
    (i.ExecBinlogCoordinates.Equals target = true →
      StartSlaveUntilMasterCoordinates k target
          ⟨(i0, none) :: (smaller ++ (i, none) :: rest), none :: execs, issued⟩ =
        StopSlave k ⟨rest, execs, issued ++ [startUntilCommand target]⟩) ∧
    (i.ExecBinlogCoordinates.Equals target = true →
      ∀ (j j2 : Instance) (e2 : Option Error) (rest2 : List (Instance × Option Error))
        (execs2 : List (Option Error)),
        rest = (j, none) :: (j2, e2) :: rest2 → j.IsSlave = true → execs = none :: execs2 →
        StartSlaveUntilMasterCoordinates k target
            ⟨(i0, none) :: (smaller ++ (i, none) :: rest), none :: execs, issued⟩ =
          some (j2, e2, ⟨rest2, execs2, issued ++ [startUntilCommand target, "stop slave"]⟩)) ∧
    (target.SmallerThan i.ExecBinlogCoordinates = true →
      StartSlaveUntilMasterCoordinates k target
          ⟨(i0, none) :: (smaller ++ (i, none) :: rest), none :: execs, issued⟩ =
        some (i, some (overshootError k),
          ⟨rest, execs, issued ++ [startUntilCommand target]⟩)) := by
  have hstart : ∀ ps : List (Instance × Option Error),
      StartSlaveUntilMasterCoordinates k target ⟨(i0, none) :: ps, none :: execs, issued⟩ =
        match pollUntilCoordinates k target ps with
        | none => none
        | some (inst, some e, rest) =>
          some (inst, some e, ⟨rest, execs, issued ++ [startUntilCommand target]⟩)
        | some (_, none, rest) =>
          StopSlave k ⟨rest, execs, issued ++ [startUntilCommand target]⟩ := by
    intro ps
    simp [StartSlaveUntilMasterCoordinates, Script.probe, Script.exec, h0, h1]
  have hequal : i.ExecBinlogCoordinates.Equals target = true →
      StartSlaveUntilMasterCoordinates k target
          ⟨(i0, none) :: (smaller ++ (i, none) :: rest), none :: execs, issued⟩ =
        StopSlave k ⟨rest, execs, issued ++ [startUntilCommand target]⟩ := by
    intro he
    rw [hstart, pollUntilCoordinates_skip k target smaller _ hs]
    simp [pollUntilCoordinates, Equals_not_SmallerThan _ _ he, he]
  refine ⟨?_, hequal, ?_, ?_⟩
  · rw [hstart]
    have := pollUntilCoordinates_skip k target smaller [] hs
    rw [List.append_nil] at this
    rw [this]
    rfl
  · intro he j j2 e2 rest2 execs2 hrest hj hexecs
    rw [hequal he, hrest, hexecs]
    simp [StopSlave, Script.probe, Script.exec, hj]
  · intro hgt
    obtain ⟨hns, hne⟩ := SmallerThan_asymm _ _ hgt
    rw [hstart, pollUntilCoordinates_skip k target smaller _ hs]
    simp [pollUntilCoordinates, hns, hne, hgt]

/-- The stopped replica `db2:3306` with its coordinates at the given position. -/
def replicaAt (pos : Int) : Instance :=
  { replicaStopped with ExecBinlogCoordinates := ⟨"bin.000001", pos⟩ }

/-- A run of `StartSlaveUntilMasterCoordinates_polling` toward `bin.000001:700`: two re-probes
below the target, then one at position 700 (or, for the last part, 800). -/
theorem StartSlaveUntilMasterCoordinates_polling_witness :
    StartSlaveUntilMasterCoordinates db2 ⟨"bin.000001", 700⟩
        ⟨(replicaStopped, none) :: [(replicaAt 500, none), (replicaAt 600, none)],
          none :: [none], []⟩ = none ∧
    StartSlaveUntilMasterCoordinates db2 ⟨"bin.000001", 700⟩
        ⟨(replicaStopped, none) :: ([(replicaAt 500, none), (replicaAt 600, none)] ++
          (replicaAt 700, none) :: [(replicaAt 700, none), (replicaAt 700, none)]),
          none :: [none], []⟩ =
      some (replicaAt 700, none,
        ⟨[], [], [] ++ [startUntilCommand ⟨"bin.000001", 700⟩, "stop slave"]⟩) ∧
    StartSlaveUntilMasterCoordinates db2 ⟨"bin.000001", 700⟩
        ⟨(replicaStopped, none) :: ([(replicaAt 500, none), (replicaAt 600, none)] ++
          (replicaAt 800, none) :: [(replicaAt 700, none), (replicaAt 700, none)]),
          none :: [none], []⟩ =
      some (replicaAt 800, some (overshootError db2),
        ⟨[(replicaAt 700, none), (replicaAt 700, none)], [none],
          [] ++ [startUntilCommand ⟨"bin.000001", 700⟩]⟩) :=
  ⟨(StartSlaveUntilMasterCoordinates_polling db2 ⟨"bin.000001", 700⟩ replicaStopped
      (replicaAt 700) [(replicaAt 500, none), (replicaAt 600, none)]
      [(replicaAt 700, none), (replicaAt 700, none)] [none] [] (by decide) (by decide)
      (by decide)).1,
   (StartSlaveUntilMasterCoordinates_polling db2 ⟨"bin.000001", 700⟩ replicaStopped
      (replicaAt 700) [(replicaAt 500, none), (replicaAt 600, none)]
      [(replicaAt 700, none), (replicaAt 700, none)] [none] [] (by decide) (by decide)
      (by decide)).2.2.1 (by decide) (replicaAt 700) (replicaAt 700) none [] [] rfl
      (by decide) rfl,
   (StartSlaveUntilMasterCoordinates_polling db2 ⟨"bin.000001", 700⟩ replicaStopped
      (replicaAt 800) [(replicaAt 500, none), (replicaAt 600, none)]
      [(replicaAt 700, none), (replicaAt 700, none)] [none] [] (by decide) (by decide)
      (by decide)).2.2.2 (by decide)⟩

/-! ## C11: `ReadClusterNameByMaster` -/

theorem hasKey_iff (k : InstanceKey) (r : Row) : Row.hasKey k r = true ↔ r.key = k := by
  rcases k with ⟨h, p⟩
  simp [Row.hasKey, Row.key]

theorem findRow_some_key (rows : List Row) (k : InstanceKey) (r : Row)
    (h : findRow rows k = some r) : r.key = k :=
  (hasKey_iff k r).1 (List.find?_some h)

theorem findRow_of_mem (rows : List Row) (r : Row) (hk : (rows.map Row.key).Nodup)
    (hr : r ∈ rows) : findRow rows r.key = some r := by
  induction rows with
  | nil => cases hr
  | cons a t ih =>
    rw [List.map_cons, List.nodup_cons] at hk
    unfold findRow at ih ⊢
    rcases List.mem_cons.1 hr with rfl | hmem
    · simp [List.find?, hasKey_key]
    · have hne : Row.hasKey r.key a = false := by
        cases hh : Row.hasKey r.key a with
        | false => rfl
        | true =>
          exfalso
          apply hk.1
          rw [(hasKey_iff _ _).1 hh]
          exact List.mem_map_of_mem _ hmem
      simp only [List.find?, hne]
      exact ih hk.2 hmem

theorem display_ne_empty (k : InstanceKey) : k.display ≠ "" := by
  intro h
  have := congrArg String.length h
  simp only [InstanceKey.display, String.length_append] at this
  have h1 : (":" : String).length = 1 := rfl
  have h0 : ("" : String).length = 0 := rfl
  omega

/-- C11: with the backend answering, `ReadClusterNameByMaster` returns the `cluster_name` of
the master's row when that row exists and the name is not empty, the master's `host:port`
when the row exists with an empty name, and the instance's own `host:port` when the catalog
has no row for the master. -/
theorem ReadClusterNameByMaster_cases (rows : List Row) (instanceKey masterKey : InstanceKey) :
    (∀ r, findRow rows masterKey = some r → r.cluster_name ≠ "" →
      ReadClusterNameByMaster ExecFaults.none rows instanceKey masterKey =
        (r.cluster_name, none)) ∧
    (∀ r, findRow rows masterKey = some r → r.cluster_name = "" →
      ReadClusterNameByMaster ExecFaults.none rows instanceKey masterKey =
        (masterKey.display, none)) ∧
    (findRow rows masterKey = none →
      ReadClusterNameByMaster ExecFaults.none rows instanceKey masterKey =
        (instanceKey.display, none)) := by
  refine ⟨?_, ?_, ?_⟩
  · intro r hr hne
    simp [ReadClusterNameByMaster, ExecFaults.none, hr, hne]
  · intro r hr he
    have hkey := findRow_some_key rows masterKey r hr
    simp [ReadClusterNameByMaster, ExecFaults.none, hr, he, hkey, display_ne_empty]
  · intro hr
    simp [ReadClusterNameByMaster, ExecFaults.none, hr]

/-! ## C12: `ForgetInstance` followed by `ReadInstance` -/

/-- C12: after `ForgetInstance(K)` returns without error, `ReadInstance(K)` on the catalog it
leaves returns `found = false`, whatever the outcome of the read's own backend calls. -/
theorem ForgetInstance_then_ReadInstance (f : ForgetFaults) (now : Nat) (rows rows' : List Row)
    (audit audit' : List AuditRow) (k : InstanceKey)
    (h : ForgetInstance f now rows audit k = (none, rows', audit')) :
    findRow rows' k = none ∧
    ∀ (f' : ExecFaults) (cfg : Configuration) (now' : Nat),
      (ReadInstance f' cfg now' rows' k).2.1 = false := by
  have hfind : findRow rows' k = none := by
    unfold ForgetInstance at h
    cases ho : f.openErr with
    | some e => simp [ho] at h
    | none =>
      cases hd : f.deleteErr with
      | some e => simp [ho, hd] at h
      | none =>
        simp only [ho, hd, Prod.mk.injEq, true_and] at h
        rw [← h.1]
        simp [findRow, List.find?_eq_none]
  refine ⟨hfind, ?_⟩
  intro f' cfg now'
  unfold ReadInstance
  cases f'.openErr with
  | some e => rfl
  | none =>
    cases f'.execErr with
    | some e => rfl
    | none => simp [hfind]

/-- A run of `ForgetInstance_then_ReadInstance`: forgetting `db2:3306`. -/
theorem ForgetInstance_then_ReadInstance_witness :
    findRow [rowMaster] db2 = none ∧
    ∀ (f' : ExecFaults) (cfg : Configuration) (now' : Nat),
      (ReadInstance f' cfg now' [rowMaster] db2).2.1 = false :=
  ForgetInstance_then_ReadInstance ForgetFaults.none 200 [rowDb2, rowMaster] [rowMaster] []
    [⟨1, 200, "forget", "db2", 3306, ""⟩] db2 (by decide)

/-! ## C13: `ForgetLongUnseenInstances` -/

theorem unseenWhere_true_iff (cfg : Configuration) (now : Nat) (r : Row) :
    unseenWhere cfg now r = some true ↔
      ∃ ls : Nat, r.last_seen = some ls ∧
        (ls : Int) < (now : Int) - 3600 * (cfg.UnseenInstanceForgetHours : Int) := by
  unfold unseenWhere
  cases r.last_seen with
  | none => simp [sqlLt]
  | some ls => simp [sqlLt]

/-- C13: when its backend calls succeed, `ForgetLongUnseenInstances` removes exactly the rows
whose `last_seen` is earlier than `now` minus `UnseenInstanceForgetHours` hours, and what is
left is the table without these rows, the other rows as they were; a row last seen 300 hours
ago is removed when the threshold is 240. -/
theorem ForgetLongUnseenInstances_removes (f : ForgetFaults) (cfg : Configuration) (now : Nat)
    (rows : List Row) (audit : List AuditRow)
    (ho : f.openErr = none) (hd : f.deleteErr = none) :
    (ForgetLongUnseenInstances f cfg now rows audit).1 = none ∧
    (∀ r ∈ rows, (r ∉ (ForgetLongUnseenInstances f cfg now rows audit).2.1 ↔
      ∃ ls : Nat, r.last_seen = some ls ∧
        (ls : Int) < (now : Int) - 3600 * (cfg.UnseenInstanceForgetHours : Int))) ∧
    (ForgetLongUnseenInstances f cfg now rows audit).2.1.Sublist rows ∧
    (∀ r ∈ rows, ∀ ls : Nat, r.last_seen = some ls → now = ls + 300 * 3600 →
      cfg.UnseenInstanceForgetHours = 240 →
      r ∉ (ForgetLongUnseenInstances f cfg now rows audit).2.1) := by
  have hrows : (ForgetLongUnseenInstances f cfg now rows audit).2.1 =
      rows.filter (fun r => !(unseenWhere cfg now r == some true)) := by
    simp [ForgetLongUnseenInstances, ho, hd]
  have hiff : ∀ r ∈ rows, (r ∉ (ForgetLongUnseenInstances f cfg now rows audit).2.1 ↔
      ∃ ls : Nat, r.last_seen = some ls ∧
        (ls : Int) < (now : Int) - 3600 * (cfg.UnseenInstanceForgetHours : Int)) := by
    intro r hr
    rw [hrows, ← unseenWhere_true_iff]
    simp [List.mem_filter, hr]
  refine ⟨?_, hiff, ?_, ?_⟩
  · simp [ForgetLongUnseenInstances, ho, hd]
  · rw [hrows]
    exact List.filter_sublist _
  · intro r hr ls hls hnow hcfg
    rw [hiff r hr]
    refine ⟨ls, hls, ?_⟩
    rw [hcfg, hnow]
    push_cast
    omega

/-- A catalog row of `db2:3306` last seen at second 1000. -/
def rowLongUnseen : Row := { rowDb2 with last_checked := 1000, last_seen := some 1000 }

/-- A run of `ForgetLongUnseenInstances_removes` at 300 hours past second 1000, with the
default threshold of 240 hours. -/
theorem ForgetLongUnseenInstances_removes_witness :
    rowLongUnseen ∉ (ForgetLongUnseenInstances ForgetFaults.none NewConfiguration
      (1000 + 300 * 3600) [rowLongUnseen] []).2.1 :=
  (ForgetLongUnseenInstances_removes ForgetFaults.none NewConfiguration (1000 + 300 * 3600)
    [rowLongUnseen] [] rfl rfl).2.2.2 rowLongUnseen (List.mem_singleton.2 rfl) 1000 rfl rfl rfl

/-! ## C14: `ReadOutdatedInstanceKeys` -/

theorem mem_ReadOutdatedInstanceKeys (cfg : Configuration) (now : Nat) (rows : List Row)
    (k : InstanceKey) :
    k ∈ (ReadOutdatedInstanceKeys ExecFaults.none cfg now rows).1 ↔
      ∃ r ∈ rows, outdatedWhere cfg now r = true ∧ (1 ≤ r.port ∧ r.port ≤ 65535) ∧
        r.key = k := by
  simp only [ReadOutdatedInstanceKeys, ExecFaults.none, List.mem_filterMap, List.mem_filter]
  constructor
  · rintro ⟨r, ⟨hr, hw⟩, hp⟩
    unfold NewInstanceKeyFromStrings at hp
    by_cases hport : 1 ≤ r.port ∧ r.port ≤ 65535
    · simp only [hport, and_self, if_true, Option.some.injEq] at hp
      exact ⟨r, hr, hw, hport, hp⟩
    · simp [hport] at hp
  · rintro ⟨r, hr, hw, hport, hkey⟩
    refine ⟨r, ⟨hr, hw⟩, ?_⟩
    simp [NewInstanceKeyFromStrings, hport, ← hkey, Row.key]

/-- C14: with the backend answering and the row keys distinct, a catalog row with a parseable
key, checked no later than `now`, has its key returned by `ReadOutdatedInstanceKeys` if and
only if `last_checked < now − InstancePollSeconds`, which holds if and only if `ReadInstance`
at the same `now` yields `IsUpToDate = false` for it; and every key returned is the key of
such a row. -/
theorem ReadOutdatedInstanceKeys_iff (cfg : Configuration) (now : Nat) (rows : List Row)
    (r : Row) (hk : (rows.map Row.key).Nodup) (hr : r ∈ rows)
    (hport : 1 ≤ r.port ∧ r.port ≤ 65535) (hnow : r.last_checked ≤ now)
    (hpoll : cfg.InstancePollSeconds < uintSize) :
    (r.key ∈ (ReadOutdatedInstanceKeys ExecFaults.none cfg now rows).1 ↔
      (r.last_checked : Int) < (now : Int) - (cfg.InstancePollSeconds : Int)) ∧
    ((r.last_checked : Int) < (now : Int) - (cfg.InstancePollSeconds : Int) ↔
      (ReadInstance ExecFaults.none cfg now rows r.key).1.IsUpToDate = false) ∧
    (∀ k ∈ (ReadOutdatedInstanceKeys ExecFaults.none cfg now rows).1,
      ∃ x ∈ rows, x.key = k ∧
        (x.last_checked : Int) < (now : Int) - (cfg.InstancePollSeconds : Int)) := by
  refine ⟨?_, ?_, ?_⟩
  · rw [mem_ReadOutdatedInstanceKeys]
    constructor
    · rintro ⟨x, hx, hw, _, hkey⟩
      have : x = r := List.inj_on_of_nodup_map hk hx hr hkey
      subst this
      simpa [outdatedWhere] using hw
    · intro h
      exact ⟨r, hr, by simpa [outdatedWhere] using h, hport, rfl⟩
  · have hfind := findRow_of_mem rows r hk hr
    unfold ReadInstance
    simp only [ExecFaults.none, hfind]
    unfold uintSize at hpoll ⊢
    by_cases hs : timestampdiff r.last_checked now < 0 ∨
        ((2 ^ 64 : Nat) : Int) ≤ timestampdiff r.last_checked now
    · simp only [hs, if_true, scanColumns, NewInstance, iff_true]
      unfold timestampdiff at hs
      omega
    · simp only [hs, if_false, decide_eq_false_iff_not, not_le]
      unfold timestampdiff at hs ⊢
      omega
  · intro k hkmem
    obtain ⟨x, hx, hw, _, hkey⟩ := (mem_ReadOutdatedInstanceKeys cfg now rows k).1 hkmem
    exact ⟨x, hx, hkey, by simpa [outdatedWhere] using hw⟩

/-- A run of `ReadOutdatedInstanceKeys_iff`: `db2:3306`, checked at second 100, at second 200
with the default poll interval of 60 seconds. -/
theorem ReadOutdatedInstanceKeys_iff_witness :
    (rowDb2.key ∈ (ReadOutdatedInstanceKeys ExecFaults.none NewConfiguration 200 [rowDb2]).1 ↔
      (rowDb2.last_checked : Int) < (200 : Nat) - (NewConfiguration.InstancePollSeconds : Int)) ∧
    ((rowDb2.last_checked : Int) < (200 : Nat) - (NewConfiguration.InstancePollSeconds : Int) ↔
      (ReadInstance ExecFaults.none NewConfiguration 200 [rowDb2] rowDb2.key).1.IsUpToDate =
        false) :=
  ⟨(ReadOutdatedInstanceKeys_iff NewConfiguration 200 [rowDb2] rowDb2 (by decide)
      (List.mem_singleton.2 rfl) (by decide) (by decide) (by decide)).1,
   (ReadOutdatedInstanceKeys_iff NewConfiguration 200 [rowDb2] rowDb2 (by decide)
      (List.mem_singleton.2 rfl) (by decide) (by decide) (by decide)).2.1⟩

/-! ## C15, C16: `ReadRecentAudit` -/

theorem wrapInt_of_lt (x : Int) (h0 : 0 ≤ x) (h1 : x < 2 ^ 63) : wrapInt x = x := by
  unfold wrapInt
  omega

theorem timestamp_readAuditRow (l : List AuditRow) :
    (l.map readAuditRow).map Audit.AuditTimestamp = l.map AuditRow.audit_timestamp := by
  rw [List.map_map]
  rfl

theorem timestamps_determined (table o1 o2 : List AuditRow)
    (h1 : orderedByTimestampDesc table o1) (h2 : orderedByTimestampDesc table o2) :
    o1.map AuditRow.audit_timestamp = o2.map AuditRow.audit_timestamp := by
  haveI : IsAntisymm Nat (fun a b => b ≤ a) := ⟨fun _ _ hab hba => le_antisymm hba hab⟩
  refine List.eq_of_perm_of_sorted (r := fun a b : Nat => b ≤ a)
    ((h1.1.trans h2.1.symm).map _) ?_ ?_
  · exact List.pairwise_map.2 h1.2
  · exact List.pairwise_map.2 h2.2

theorem ReadRecentAudit_timestamps (f : ExecFaults) (cfg : Configuration)
    (ordered : List AuditRow) (page : Int) :
    (ReadRecentAudit f cfg ordered page).1.map Audit.AuditTimestamp =
      if f.openErr = none ∧ f.execErr = none ∧
          ¬ (cfg.AuditPageSize < 0 ∨ wrapInt (page * cfg.AuditPageSize) < 0) then
        ((ordered.map AuditRow.audit_timestamp).drop
          (wrapInt (page * cfg.AuditPageSize)).toNat).take cfg.AuditPageSize.toNat
      else [] := by
  unfold ReadRecentAudit
  cases f.openErr with
  | some e => simp
  | none =>
    cases f.execErr with
    | some e => simp
    | none =>
      by_cases hbad : cfg.AuditPageSize < 0 ∨ wrapInt (page * cfg.AuditPageSize) < 0
      · simp [hbad]
      · simp only [hbad, if_false, true_and, not_false_eq_true, if_true]
        rw [timestamp_readAuditRow, List.map_take, List.map_drop]

theorem map_eq_of_injOn {α β : Type} (g : α → β) :
    ∀ l1 l2 : List α, l1.map g = l2.map g →
      (∀ a ∈ l1, ∀ b ∈ l2, g a = g b → a = b) → l1 = l2
  | [], [], _, _ => rfl
  | [], _ :: _, h, _ => by simp at h
  | _ :: _, [], h, _ => by simp at h
  | a :: t1, b :: t2, h, hinj => by
    simp only [List.map_cons, List.cons.injEq] at h
    have hab : a = b := hinj a (List.mem_cons_self _ _) b (List.mem_cons_self _ _) h.1
    have ht : t1 = t2 := map_eq_of_injOn g t1 t2 h.2 (fun x hx y hy hxy =>
      hinj x (List.mem_cons_of_mem _ hx) y (List.mem_cons_of_mem _ hy) hxy)
    rw [hab, ht]

/-- Six audit rows, newest first. -/
def auditLog6 : List AuditRow :=
  [⟨6, 600, "forget", "db6", 3306, ""⟩, ⟨5, 500, "forget", "db5", 3306, ""⟩,
   ⟨4, 400, "forget", "db4", 3306, ""⟩, ⟨3, 300, "forget", "db3", 3306, ""⟩,
   ⟨2, 200, "forget", "db2", 3306, ""⟩, ⟨1, 100, "forget", "db1", 3306, ""⟩]

/-- C15, as stated, fails: with `AuditPageSize = 20` the Go product `page * AuditPageSize` for
page 922337203685477581 wraps to 4, so `ReadRecentAudit` returns the entries at positions 4
and 5 of a six-entry log, while the positions `p·AuditPageSize` onward hold no entry. -/
theorem ReadRecentAudit_offset_wraps :
    wrapInt (922337203685477581 * NewConfiguration.AuditPageSize) = 4 ∧
    (922337203685477581 : Int) < 2 ^ 63 ∧
    (ReadRecentAudit ExecFaults.none NewConfiguration auditLog6 922337203685477581).1.map
      Audit.AuditId = [2, 1] ∧
    (auditLog6.drop (922337203685477581 * 20)).take 20 = [] ∧
    orderedByTimestampDesc auditLog6 auditLog6 :=
  ⟨by decide, by decide, by decide, by decide, List.Perm.refl _, by decide⟩

/-- C15, amended: for every audit log, every `AuditPageSize ≥ 0` and every page `p ≥ 0` for
which `p·AuditPageSize` is below `2^63`, `ReadRecentAudit(p)` returns at most `AuditPageSize`
entries, namely the entries at positions `p·AuditPageSize` up to `(p+1)·AuditPageSize` of the
log as the backend orders it by timestamp descending, so timestamps are non-increasing within
the page, and no entry of page `p+1` (with `(p+1)·AuditPageSize` below `2^63`) is later than an
entry of page `p`, whichever order the backend gives equal timestamps in either read. -/
theorem ReadRecentAudit_page (cfg : Configuration) (table ordered : List AuditRow) (page : Int)
    (hp : 0 ≤ page) (hs : 0 ≤ cfg.AuditPageSize) (hov : page * cfg.AuditPageSize < 2 ^ 63)
    (hord : orderedByTimestampDesc table ordered) :
    (ReadRecentAudit ExecFaults.none cfg ordered page).2 = none ∧
    (ReadRecentAudit ExecFaults.none cfg ordered page).1 =
      ((ordered.drop (page.toNat * cfg.AuditPageSize.toNat)).take
        cfg.AuditPageSize.toNat).map readAuditRow ∧
    (ReadRecentAudit ExecFaults.none cfg ordered page).1.length ≤ cfg.AuditPageSize.toNat ∧
    ((ReadRecentAudit ExecFaults.none cfg ordered page).1.map Audit.AuditTimestamp).Sorted
      (fun a b => b ≤ a) ∧
    (∀ ordered', orderedByTimestampDesc table ordered' →
      (page + 1) * cfg.AuditPageSize < 2 ^ 63 →
      ∀ a ∈ (ReadRecentAudit ExecFaults.none cfg ordered page).1,
      ∀ b ∈ (ReadRecentAudit ExecFaults.none cfg ordered' (page + 1)).1,
        b.AuditTimestamp ≤ a.AuditTimestamp) := by
  have hmul : 0 ≤ page * cfg.AuditPageSize := Int.mul_nonneg hp hs
  have hw : wrapInt (page * cfg.AuditPageSize) = page * cfg.AuditPageSize :=
    wrapInt_of_lt _ hmul hov
  have hoff : (page * cfg.AuditPageSize).toNat = page.toNat * cfg.AuditPageSize.toNat := by
    obtain ⟨n, rfl⟩ := Int.eq_ofNat_of_zero_le hp
    obtain ⟨m, hm⟩ := Int.eq_ofNat_of_zero_le hs
    rw [hm]
    norm_cast
  have hgood : ¬ (cfg.AuditPageSize < 0 ∨ wrapInt (page * cfg.AuditPageSize) < 0) := by
    rw [hw]; omega
  have hres : (ReadRecentAudit ExecFaults.none cfg ordered page).1 =
      ((ordered.drop (page.toNat * cfg.AuditPageSize.toNat)).take
        cfg.AuditPageSize.toNat).map readAuditRow := by
    simp only [ReadRecentAudit, ExecFaults.none, hgood, if_false]
    rw [hw, hoff]
  have hts : (ReadRecentAudit ExecFaults.none cfg ordered page).1.map Audit.AuditTimestamp =
      ((ordered.map AuditRow.audit_timestamp).drop
        (page.toNat * cfg.AuditPageSize.toNat)).take cfg.AuditPageSize.toNat := by
    rw [hres, timestamp_readAuditRow, List.map_take, List.map_drop]
  have hsorted : (ordered.map AuditRow.audit_timestamp).Sorted (fun a b => b ≤ a) :=
    List.pairwise_map.2 hord.2
  refine ⟨?_, hres, ?_, ?_, ?_⟩
  · simp [ReadRecentAudit, ExecFaults.none, hgood]
  · rw [hres, List.length_map]
    exact List.length_take_le _ _
  · rw [hts]
    exact List.Pairwise.sublist
      ((List.take_sublist _ _).trans (List.drop_sublist _ _)) hsorted
  · intro ordered' hord' hov' a ha b hb
    have hp' : 0 ≤ page + 1 := by omega
    have hmul' : 0 ≤ (page + 1) * cfg.AuditPageSize := Int.mul_nonneg hp' hs
    have hw' : wrapInt ((page + 1) * cfg.AuditPageSize) = (page + 1) * cfg.AuditPageSize :=
      wrapInt_of_lt _ hmul' hov'
    have hoff' : ((page + 1) * cfg.AuditPageSize).toNat =
        page.toNat * cfg.AuditPageSize.toNat + cfg.AuditPageSize.toNat := by
      obtain ⟨n, rfl⟩ := Int.eq_ofNat_of_zero_le hp
      obtain ⟨m, hm⟩ := Int.eq_ofNat_of_zero_le hs
      rw [hm]
      have : ((n : Int) + 1) * (m : Int) = ((n * m + m : Nat) : Int) := by
        push_cast; ring
      rw [this]
      simp only [Int.toNat_ofNat]
    have hgood' : ¬ (cfg.AuditPageSize < 0 ∨ wrapInt ((page + 1) * cfg.AuditPageSize) < 0) := by
      rw [hw']; omega
    have hta : a.AuditTimestamp ∈
        (ReadRecentAudit ExecFaults.none cfg ordered page).1.map Audit.AuditTimestamp :=
      List.mem_map_of_mem _ ha
    have htb : b.AuditTimestamp ∈
        (ReadRecentAudit ExecFaults.none cfg ordered' (page + 1)).1.map Audit.AuditTimestamp :=
      List.mem_map_of_mem _ hb
    rw [hts, List.take_drop] at hta
    rw [ReadRecentAudit_timestamps] at htb
    simp only [ExecFaults.none, hgood', not_false_eq_true, and_self, if_true] at htb
    rw [hw', hoff', ← timestamps_determined table ordered ordered' hord hord'] at htb
    have hleft := List.mem_of_mem_drop hta
    have hright := List.mem_of_mem_take htb
    have hsplit := List.take_append_drop
      (page.toNat * cfg.AuditPageSize.toNat + cfg.AuditPageSize.toNat)
      (ordered.map AuditRow.audit_timestamp)
    rw [← hsplit] at hsorted
    exact (List.pairwise_append.1 hsorted).2.2 _ hleft _ hright

/-- A run of `ReadRecentAudit_page`: page 1 of the six-entry log with a page size of 2. -/
theorem ReadRecentAudit_page_witness :
    (ReadRecentAudit ExecFaults.none { NewConfiguration with AuditPageSize := 2 } auditLog6
      1).1.length ≤ 2 ∧
    ((ReadRecentAudit ExecFaults.none { NewConfiguration with AuditPageSize := 2 } auditLog6
      1).1.map Audit.AuditTimestamp).Sorted (fun a b => b ≤ a) :=
  ⟨(ReadRecentAudit_page { NewConfiguration with AuditPageSize := 2 } auditLog6 auditLog6 1
      (by decide) (by decide) (by decide) ⟨List.Perm.refl _, by decide⟩).2.2.1,
   (ReadRecentAudit_page { NewConfiguration with AuditPageSize := 2 } auditLog6 auditLog6 1
      (by decide) (by decide) (by decide) ⟨List.Perm.refl _, by decide⟩).2.2.2.1⟩

/-- Two audit rows written in the same second. -/
def auditTie : List AuditRow :=
  [⟨1, 100, "forget", "db1", 3306, ""⟩, ⟨2, 100, "forget", "db2", 3306, ""⟩]

/-- C16, as stated, fails: for a log of two entries with the same timestamp both orders
answer `order by audit_timestamp desc`, and `ReadRecentAudit` returns the ids as `[1, 2]` for
one and as `[2, 1]` for the other: the statement has no tie-break by id, and two reads of the
same log need not return the same sequence. -/
theorem ReadRecentAudit_ties_unordered :
    orderedByTimestampDesc auditTie auditTie ∧
    orderedByTimestampDesc auditTie auditTie.reverse ∧
    (ReadRecentAudit ExecFaults.none NewConfiguration auditTie 0).1.map Audit.AuditId = [1, 2] ∧
    (ReadRecentAudit ExecFaults.none NewConfiguration auditTie.reverse 0).1.map Audit.AuditId =
      [2, 1] :=
  ⟨⟨List.Perm.refl _, by decide⟩, ⟨List.reverse_perm _, by decide⟩, by decide, by decide⟩

/-- C16, amended: audit entries read through `ReadRecentAudit` are ordered by timestamp
descending only, and the order of entries with equal timestamps is the backend's choice: two
reads of the same log return the same error and the same sequence of timestamps, and they
return the same sequence of entries when no two entries of the log share a timestamp. -/
theorem ReadRecentAudit_determined (f : ExecFaults) (cfg : Configuration)
    (table o1 o2 : List AuditRow) (page : Int)
    (h1 : orderedByTimestampDesc table o1) (h2 : orderedByTimestampDesc table o2) :
    (ReadRecentAudit f cfg o1 page).2 = (ReadRecentAudit f cfg o2 page).2 ∧
    (ReadRecentAudit f cfg o1 page).1.map Audit.AuditTimestamp =
      (ReadRecentAudit f cfg o2 page).1.map Audit.AuditTimestamp ∧
    ((table.map AuditRow.audit_timestamp).Nodup →
      ReadRecentAudit f cfg o1 page = ReadRecentAudit f cfg o2 page) := by
  have hts := timestamps_determined table o1 o2 h1 h2
  refine ⟨?_, ?_, ?_⟩
  · unfold ReadRecentAudit
    cases f.openErr with
    | some e => rfl
    | none =>
      cases f.execErr with
      | some e => rfl
      | none =>
        by_cases hbad : cfg.AuditPageSize < 0 ∨ wrapInt (page * cfg.AuditPageSize) < 0
        · simp [hbad]
        · simp [hbad]
  · rw [ReadRecentAudit_timestamps, ReadRecentAudit_timestamps, hts]
  · intro hnd
    have heq : o1 = o2 := by
      apply map_eq_of_injOn AuditRow.audit_timestamp o1 o2 hts
      intro a ha b hb hab
      exact List.inj_on_of_nodup_map hnd (h1.1.subset ha) (h2.1.subset hb) hab
    rw [heq]

/-- A run of `ReadRecentAudit_determined` on the two orders of the tied log. -/
theorem ReadRecentAudit_determined_witness :
    (ReadRecentAudit ExecFaults.none NewConfiguration auditTie 0).1.map Audit.AuditTimestamp =
      (ReadRecentAudit ExecFaults.none NewConfiguration auditTie.reverse 0).1.map
        Audit.AuditTimestamp :=
  (ReadRecentAudit_determined ExecFaults.none NewConfiguration auditTie auditTie
    auditTie.reverse 0 ⟨List.Perm.refl _, by decide⟩ ⟨List.reverse_perm _, by decide⟩).2.1

/-! ## C17, C18: the HTTP handlers -/

/-- A response reports the outcome `err` of a core operation: an error is answered by the
envelope with `Code = ERROR` and the error's text as `Message`, and `Code = OK` is sent only
when there was no error. -/
def reportsError (resp : Response) (err : Option Error) : Prop :=
  (∀ e, err = some e → ∃ d, resp = .envelope ⟨.ERROR, e, d⟩) ∧
  (resp.code = some .OK → err = none)

/-- C17, as stated, fails: `HttpAPI.Forget` answers `Code = OK` when `ForgetInstance` returned
an error, and `HttpAPI.Instance` answers an error of `ReadInstance` with the message
`Cannot read instance: ...`, which is not the error's text. -/
theorem handlers_not_uniform :
    HttpAPI.Forget (db1, none) (fun _ => some "boom") =
      .envelope ⟨.OK, "Instance forgotten: " ++ db1.plusV, .nil⟩ ∧
    HttpAPI.Instance (db1, none) (fun _ => (NewInstance, false, some "boom")) =
      .envelope ⟨.ERROR, "Cannot read instance: " ++ db1.plusV, .nil⟩ ∧
    "Cannot read instance: " ++ db1.plusV ≠ "boom" := by
  refine ⟨rfl, rfl, fun h => ?_⟩
  have hlen := congrArg String.length h
  simp only [String.length_append] at hlen
  have h1 : ("Cannot read instance: " : String).length = 22 := rfl
  have h2 : ("boom" : String).length = 4 := rfl
  omega

/-- C17, amended: every handler of `HttpAPI` other than `Forget` that waits for a core
operation answers an error of that operation with the envelope `Code = ERROR`, and sends
`Code = OK` only when the operation returned no error; the `Message` is the error's text,
except in `Instance`, whose message is `Cannot read instance: <key>` (also sent when the
instance is not found). -/
theorem handlers_report_errors :
    (∀ key op, key.2 = none → reportsError (HttpAPI.Refresh key op) (op key.1).2) ∧
    (∀ key owner reason op, key.2 = none →
      reportsError (HttpAPI.BeginMaintenance key owner reason op) (op key.1 owner reason).2) ∧
    (∀ mk op, mk.2 = none → reportsError (HttpAPI.EndMaintenance mk op) (op mk.1)) ∧
    (∀ key op, key.2 = none →
      reportsError (HttpAPI.EndMaintenanceByInstanceKey key op) (op key.1)) ∧
    (∀ r, reportsError (HttpAPI.Maintenance r) r.2) ∧
    (∀ key op, key.2 = none → reportsError (HttpAPI.MoveUp key op) (op key.1).2) ∧
    (∀ key sib op, key.2 = none → sib.2 = none →
      reportsError (HttpAPI.MoveBelow key sib op) (op key.1 sib.1).2) ∧
    (∀ key op, key.2 = none → reportsError (HttpAPI.StartSlave key op) (op key.1).2) ∧
    (∀ key op, key.2 = none → reportsError (HttpAPI.StopSlave key op) (op key.1).2) ∧
    (∀ name op, reportsError (HttpAPI.Cluster name op) (op name).2) ∧
    (∀ r, reportsError (HttpAPI.Clusters r) r.2) ∧
    (∀ s q op, reportsError (HttpAPI.Search s q op) (op (if s = "" then q else s)).2) ∧
    (∀ r, reportsError (HttpAPI.Problems r) r.2) ∧
    (∀ atoi op, reportsError (HttpAPI.Audit atoi op) (op (HttpAPI.auditPage atoi)).2) ∧
    (∀ key op, key.2 = none → (!(op key.1).2.1 || (op key.1).2.2.isSome) = true →
      HttpAPI.Instance key op =
        .envelope ⟨.ERROR, "Cannot read instance: " ++ key.1.plusV, .nil⟩) ∧
    (∀ key op, (HttpAPI.Instance key op).code ≠ some .OK) := by
  refine ⟨?_, ?_, ?_, ?_, ?_, ?_, ?_, ?_, ?_, ?_, ?_, ?_, ?_, ?_, ?_, ?_⟩
  · intro key op hk
    unfold HttpAPI.Refresh reportsError
    rcases hop : (op key.1).2 with _ | e <;> simp [hk, Response.code]
  · intro key owner reason op hk
    unfold HttpAPI.BeginMaintenance reportsError
    rcases hop : op key.1 owner reason with ⟨k, _ | e⟩ <;> simp [hk, Response.code]
  · intro mk op hk
    unfold HttpAPI.EndMaintenance reportsError
    rcases hop : op mk.1 with _ | e <;> simp [hk, Response.code]
  · intro key op hk
    unfold HttpAPI.EndMaintenanceByInstanceKey reportsError
    rcases hop : op key.1 with _ | e <;> simp [hk, Response.code]
  · rintro ⟨l, _ | e⟩ <;> simp [HttpAPI.Maintenance, reportsError, Response.code]
  · intro key op hk
    unfold HttpAPI.MoveUp reportsError
    rcases hop : op key.1 with ⟨i, _ | e⟩ <;> simp [hk, Response.code]
  · intro key sib op hk hs
    unfold HttpAPI.MoveBelow reportsError
    rcases hop : op key.1 sib.1 with ⟨i, _ | e⟩ <;> simp [hk, hs, Response.code]
  · intro key op hk
    unfold HttpAPI.StartSlave reportsError
    rcases hop : op key.1 with ⟨i, _ | e⟩ <;> simp [hk, Response.code]
  · intro key op hk
    unfold HttpAPI.StopSlave reportsError
    rcases hop : op key.1 with ⟨i, _ | e⟩ <;> simp [hk, Response.code]
  · intro name op
    unfold HttpAPI.Cluster reportsError
    rcases hop : op name with ⟨l, _ | e⟩ <;> simp [Response.code]
  · rintro ⟨l, _ | e⟩ <;> simp [HttpAPI.Clusters, reportsError, Response.code]
  · intro s q op
    unfold HttpAPI.Search reportsError
    rcases hop : op (if s = "" then q else s) with ⟨l, _ | e⟩ <;> simp [hop, Response.code]
  · rintro ⟨l, _ | e⟩ <;> simp [HttpAPI.Problems, reportsError, Response.code]
  · intro atoi op
    unfold HttpAPI.Audit reportsError
    rcases hop : op (HttpAPI.auditPage atoi) with ⟨l, _ | e⟩ <;> simp [Response.code]
  · intro key op hk h
    unfold HttpAPI.Instance
    rcases hop : op key.1 with ⟨i, found, err⟩
    rw [hop] at h
    simp only [hk]
    simp only at h
    rw [if_pos h]
  · intro key op
    unfold HttpAPI.Instance
    rcases hk : key.2 with _ | e
    · rcases hop : op key.1 with ⟨i, found, err⟩
      simp only
      split <;> simp [Response.code]
    · simp [Response.code]

/-- A run of `handlers_report_errors`: the `MoveUp` handler on a failing `MoveUp`. -/
theorem handlers_report_errors_witness :
    reportsError (HttpAPI.MoveUp (db2, none) (fun _ => (NewInstance, some "boom")))
      (some "boom") :=
  handlers_report_errors.2.2.2.2.2.1 (db2, none) (fun _ => (NewInstance, some "boom")) rfl

/-- C18 at its failing input: when `inst.BeginMaintenance` returns the id 7 without error the
handler answers `Code = OK` with `Details` unset; the id is put into `Details` only on the
error response. -/
theorem BeginMaintenance_details_unset :
    HttpAPI.BeginMaintenance (db1, none) "ops" "upgrade" (fun _ _ _ => (7, none)) =
      .envelope ⟨.OK, "Maintenance begun: " ++ db1.plusV, .nil⟩ ∧
    HttpAPI.BeginMaintenance (db1, none) "ops" "upgrade"
        (fun _ _ _ => (7, some "already in maintenance")) =
      .envelope ⟨.ERROR, "already in maintenance", .maintenanceKey 7⟩ :=
  ⟨rfl, rfl⟩

/-! ## C19: the audit entries of the forget functions -/

/-- C19, as stated, fails: with the `delete` statement failing, `ForgetInstance` and
`ForgetLongUnseenInstances` return the error, leave the catalog as it was and still write
their audit entry; with the `delete` succeeding and the audit insert failing, they return no
error and write no entry. -/
theorem forget_audit_not_tied_to_delete :
    ForgetInstance ⟨none, some "boom", ExecFaults.none⟩ 200 [rowDb2] [] db2 =
      (some "boom", [rowDb2], [⟨1, 200, "forget", "db2", 3306, ""⟩]) ∧
    ForgetLongUnseenInstances ⟨none, some "boom", ExecFaults.none⟩ NewConfiguration 200
        [rowDb2] [] =
      (some "boom", [rowDb2], [⟨1, 200, "forget-unseen", "", 0, ""⟩]) ∧
    ForgetInstance ⟨none, none, ⟨none, some "boom"⟩⟩ 200 [rowDb2] [] db2 = (none, [], []) ∧
    ForgetLongUnseenInstances ⟨none, none, ⟨none, some "boom"⟩⟩ NewConfiguration
        (1000 + 300 * 3600) [rowLongUnseen] [] = (none, [], []) := by
  decide

/-- C19, amended: `ForgetInstance(K)` calls `AuditOperation("forget", K)` once the backend is
opened, after its `delete` statement and whatever that statement returned, and
`ForgetLongUnseenInstances` does so with `"forget-unseen"` and no key: the entry is appended
when the function's own open and the audit's open and insert succeed, and otherwise the audit
table is left as it was. -/
theorem forget_audit_entry (f : ForgetFaults) (cfg : Configuration) (now : Nat)
    (rows : List Row) (audit : List AuditRow) (k : InstanceKey) :
    ((f.openErr = none ∧ f.audit.openErr = none ∧ f.audit.execErr = none) →
      (ForgetInstance f now rows audit k).2.2 =
          audit ++ [⟨nextAuditId audit, now, "forget", k.Hostname, k.Port, ""⟩] ∧
        (ForgetLongUnseenInstances f cfg now rows audit).2.2 =
          audit ++ [⟨nextAuditId audit, now, "forget-unseen", "", 0, ""⟩]) ∧
    (¬ (f.openErr = none ∧ f.audit.openErr = none ∧ f.audit.execErr = none) →
      (ForgetInstance f now rows audit k).2.2 = audit ∧
        (ForgetLongUnseenInstances f cfg now rows audit).2.2 = audit) := by
  unfold ForgetInstance ForgetLongUnseenInstances AuditOperation
  rcases ho : f.openErr with _ | e <;> rcases hao : f.audit.openErr with _ | e2 <;>
    rcases hae : f.audit.execErr with _ | e3 <;> simp

/-- A run of `forget_audit_entry` with every backend call succeeding. -/
theorem forget_audit_entry_witness :
    (ForgetInstance ForgetFaults.none 200 [rowDb2] [] db2).2.2 =
        [] ++ [⟨nextAuditId [], 200, "forget", db2.Hostname, db2.Port, ""⟩] ∧
      (ForgetLongUnseenInstances ForgetFaults.none NewConfiguration 200 [rowDb2] []).2.2 =
        [] ++ [⟨nextAuditId [], 200, "forget-unseen", "", 0, ""⟩] :=
  (forget_audit_entry ForgetFaults.none NewConfiguration 200 [rowDb2] [] db2).1
    ⟨rfl, rfl, rfl⟩

/-! ## C20: the default configuration -/

/-- C20: `NewConfiguration` returns the documented defaults, and empty `HTTPAuthUser`,
`HTTPAuthPassword` and `SlaveLagQuery`. -/
theorem NewConfiguration_defaults :
    NewConfiguration.InstancePollSeconds = 60 ∧
    NewConfiguration.UnseenInstanceForgetHours = 240 ∧
    NewConfiguration.SlaveStartPostWaitMilliseconds = 1000 ∧
    NewConfiguration.DiscoverByShowSlaveHosts = false ∧
    NewConfiguration.DiscoveryPollSeconds = 5 ∧
    NewConfiguration.ReasonableReplicationLagSeconds = 10 ∧
    NewConfiguration.ReasonableMaintenanceReplicationLagSeconds = 20 ∧
    NewConfiguration.AuditPageSize = 20 ∧
    NewConfiguration.HTTPAuthUser = "" ∧
    NewConfiguration.HTTPAuthPassword = "" ∧
    NewConfiguration.SlaveLagQuery = "" :=
  ⟨rfl, rfl, rfl, rfl, rfl, rfl, rfl, rfl, rfl, rfl, rfl⟩

/-- A run of `ReadClusterNameByMaster_cases` for the replica `db2:3306` of `db1:3306`, whose
row holds an empty cluster name. -/
theorem ReadClusterNameByMaster_cases_witness :
    ReadClusterNameByMaster ExecFaults.none [rowDb2, rowMaster] db2 db1 = (db1.display, none) :=
  (ReadClusterNameByMaster_cases [rowDb2, rowMaster] db2 db1).2.1 rowMaster (by decide)
    (by decide)

/-! ## C21: `IsUpToDate` and `IsRecentlyChecked` under wrapping arithmetic -/

/-- C21, as stated, fails: with `InstancePollSeconds = 3689348814741910324` the `uint` product
`InstancePollSeconds * 5` is 4, and a row checked 10 seconds ago is marked `IsUpToDate` but
not `IsRecentlyChecked`, by `readInstanceRow` and by `ReadInstance`. -/
theorem IsUpToDate_without_IsRecentlyChecked :
    recentlyCheckedThreshold cfgWrapping = 4 ∧
    (readInstanceRow cfgWrapping (selectRow 110 rowDb2)).IsUpToDate = true ∧
    (readInstanceRow cfgWrapping (selectRow 110 rowDb2)).IsRecentlyChecked = false ∧
    (ReadInstance ExecFaults.none cfgWrapping 110 [rowDb2] db2).2 = (true, none) ∧
    (ReadInstance ExecFaults.none cfgWrapping 110 [rowDb2] db2).1.IsUpToDate = true ∧
    (ReadInstance ExecFaults.none cfgWrapping 110 [rowDb2] db2).1.IsRecentlyChecked = false := by
  decide

/-- C21, amended: for every `InstancePollSeconds` that is not above the wrapped threshold
`(InstancePollSeconds * 5) mod 2^64`, in particular whenever `5·InstancePollSeconds` is below
`2^64`, and for every `secondsSinceLastChecked`, an instance that `readInstanceRow` or
`ReadInstance` marks `IsUpToDate` is also marked `IsRecentlyChecked`. -/
theorem IsUpToDate_imp_IsRecentlyChecked (cfg : Configuration) :
    (5 * cfg.InstancePollSeconds < 2 ^ 64 →
      cfg.InstancePollSeconds ≤ (cfg.InstancePollSeconds * 5) % 2 ^ 64) ∧
    (cfg.InstancePollSeconds ≤ (cfg.InstancePollSeconds * 5) % 2 ^ 64 →
      (∀ m : RowMap, (readInstanceRow cfg m).IsUpToDate = true →
        (readInstanceRow cfg m).IsRecentlyChecked = true) ∧
      (∀ (f : ExecFaults) (now : Nat) (rows : List Row) (k : InstanceKey),
        (ReadInstance f cfg now rows k).1.IsUpToDate = true →
        (ReadInstance f cfg now rows k).1.IsRecentlyChecked = true)) := by
  constructor
  · intro h
    rw [Nat.mul_comm, Nat.mod_eq_of_lt h]
    omega
  · intro h
    have hth : cfg.InstancePollSeconds ≤ recentlyCheckedThreshold cfg := h
    constructor
    · intro m hm
      simp only [readInstanceRow, decide_eq_true_eq] at hm ⊢
      exact le_trans hm hth
    · intro f now rows k
      unfold ReadInstance
      cases f.openErr with
      | some e => simp [NewInstance]
      | none =>
        cases f.execErr with
        | some e => simp [NewInstance]
        | none =>
          cases findRow rows k with
          | none => simp [NewInstance]
          | some r =>
            simp only
            split
            · simp [scanColumns, NewInstance]
            · simp only [decide_eq_true_eq]
              intro hm
              exact le_trans hm hth

/-- A run of `IsUpToDate_imp_IsRecentlyChecked` with the default poll interval of 60 seconds. -/
theorem IsUpToDate_imp_IsRecentlyChecked_witness :
    (readInstanceRow NewConfiguration (selectRow 130 rowDb2)).IsUpToDate = true →
      (readInstanceRow NewConfiguration (selectRow 130 rowDb2)).IsRecentlyChecked = true :=
  ((IsUpToDate_imp_IsRecentlyChecked NewConfiguration).2
    ((IsUpToDate_imp_IsRecentlyChecked NewConfiguration).1 (by decide))).1 (selectRow 130 rowDb2)

/-! ## C22: the result of `stop slave io_thread` -/

theorem pollSQLThread_append (polls rest : List (Instance × Option Error)) (last : Instance)
    (hpolls : ∀ p ∈ polls, p.2 = none ∧ p.1.SQLThreadUpToDate = false)
    (hlast : last.SQLThreadUpToDate = true) :
    pollSQLThread (polls ++ (last, none) :: rest) = some (last, none, rest) := by
  induction polls with
  | nil => simp [pollSQLThread, hlast]
  | cons p t ih =>
    rcases p with ⟨j, e⟩
    obtain ⟨he, hj⟩ := hpolls (j, e) (List.mem_cons_self _ _)
    simp only at he hj
    subst he
    simp only [List.cons_append, pollSQLThread, hj, Bool.false_eq_true, if_false]
    exact ih (fun q hq => hpolls q (List.mem_cons_of_mem _ hq))

/-- C22: on a replica, when `stop slave io_thread` fails, every later probe succeeds, some
poll finds the SQL thread caught up and the final `stop slave` succeeds, `StopSlaveNicely`
goes through the polling loop, issues `stop slave` and returns the final re-probe without
the error of `stop slave io_thread`. -/
theorem StopSlaveNicely_ignores_io_thread_error (k : InstanceKey) (first last final : Instance)
    (finalErr : Option Error) (polls rest : List (Instance × Option Error))
    (execs : List (Option Error)) (issued : List String) (e : Error)
    (hslave : first.IsSlave = true)
    (hpolls : ∀ p ∈ polls, p.2 = none ∧ p.1.SQLThreadUpToDate = false)
    (hlast : last.SQLThreadUpToDate = true) :
    StopSlaveNicely k
        ⟨(first, none) :: (polls ++ (last, none) :: (final, finalErr) :: rest),
          some e :: none :: execs, issued⟩ =
      some (final, finalErr,
        ⟨rest, execs, issued ++ ["stop slave io_thread", "stop slave"]⟩) := by
  simp [StopSlaveNicely, Script.probe, Script.exec, hslave,
    pollSQLThread_append polls _ last hpolls hlast]

/-- A run of `StopSlaveNicely_ignores_io_thread_error`: `stop slave io_thread` fails on
`db2:3306`, the second poll finds the relay log applied, the final re-probe succeeds. -/
theorem StopSlaveNicely_ignores_io_thread_error_witness :
    StopSlaveNicely db2
        ⟨(replicaLagging, none) :: ([(replicaLagging, none)] ++
          (replicaCaughtUp, none) :: (replicaStopped, none) :: []),
          some "boom" :: none :: [], []⟩ =
      some (replicaStopped, none, ⟨[], [], [] ++ ["stop slave io_thread", "stop slave"]⟩) :=
  StopSlaveNicely_ignores_io_thread_error db2 replicaLagging replicaCaughtUp replicaStopped
    none [(replicaLagging, none)] [] [] [] "boom" (by decide) (by decide) (by decide)

end Orchestrator
